import Mathlib

/-!
Verification of the ERP Integration & Aggregation Service
(src/lib/analise-service.ts) against its natural-language specification.

The TypeScript source is shallowly embedded: JavaScript values are the
type `JVal`, property access that can raise a TypeError is `Except`,
module-level mutable state is threaded explicitly, and network calls are
resolved through oracle functions supplied as parameters.
-/

/-- Model of a JavaScript runtime value (the JSON-ish payloads the service
manipulates, plus `undefined`).  Objects are insertion-ordered string-keyed
association lists, which is exact for the non-numeric keys the service uses. -/
inductive JVal where
  | undef
  | null
  | bool (b : Bool)
  | num (n : Int)
  | str (s : String)
  | arr (xs : List JVal)
  | obj (fields : List (String × JVal))
deriving Repr

/-- JavaScript truthiness of a value. -/
def truthy : JVal → Bool
  | JVal.undef => false
  | .null => false
  | .bool b => b
  | .num n => n != 0
  | .str s => s != ""
  | .arr _ => true
  | .obj _ => true

/-- JavaScript property access `v.k` (or `v[k]`): throws a TypeError when the
receiver is `null` or `undefined`, yields `undefined` for a missing key or a
primitive receiver. -/
def getProp : JVal → String → Except Unit JVal
  | JVal.undef, _ => .error ()
  | .null, _ => .error ()
  | .obj fs, k => .ok ((fs.lookup k).getD JVal.undef)
  | _, _ => .ok JVal.undef

/-- JavaScript optional chaining `v?.k`: `undefined` when the receiver is
nullish, otherwise ordinary property access (total on the remaining cases). -/
def jsOptProp : JVal → String → JVal
  | JVal.undef, _ => JVal.undef
  | .null, _ => JVal.undef
  | .obj fs, k => (fs.lookup k).getD JVal.undef
  | _, _ => JVal.undef

mutual

/-- JavaScript string conversion of a value, as used for object-key coercion
and `Array.prototype.join`. -/
def jsToString : JVal → String
  | JVal.undef => "undefined"
  | .null => "null"
  | .bool b => cond b "true" "false"
  | .num n => toString n
  | .str s => s
  | .arr xs => String.intercalate "," (jsJoinParts xs)
  | .obj _ => "[object Object]"

/-- Elements of an array rendered for a `join`: `null` and `undefined`
become the empty string. -/
def jsJoinParts : List JVal → List String
  | [] => []
  | JVal.undef :: rest => "" :: jsJoinParts rest
  | .null :: rest => "" :: jsJoinParts rest
  | v :: rest => jsToString v :: jsJoinParts rest

end

/-- JavaScript property assignment `o[k] = v` on an object modelled as an
association list: an existing key is updated in place, a new key is appended
(insertion order). -/
def setProp (fs : List (String × JVal)) (k : String) (v : JVal) : List (String × JVal) :=
  if fs.any (fun p => p.1 == k) then fs.map (fun p => if p.1 == k then (k, v) else p)
  else fs ++ [(k, v)]

/-- `String.prototype.split` with a single-character separator, on the
character list: never returns an empty list of parts. -/
def jsSplitChar (sep : Char) : List Char → List Char → List (List Char)
  | [], acc => [acc.reverse]
  | c :: rest, acc =>
      if c = sep then acc.reverse :: jsSplitChar sep rest []
      else jsSplitChar sep rest (c :: acc)

/-- A split part rendered as a string; a missing destructuring target is the
string form of `undefined`. -/
def partStr : Option (List Char) → String
  | some cs => ⟨cs⟩
  | none => "undefined"

/-- (analise-service.ts lines 138-141) `formatarDataParaSankhya`:
`const [ano, mes, dia] = dataISO.split('-'); return dia + "/" + mes + "/" + ano`. -/
def formatarDataParaSankhya (dataISO : String) : String :=
  let parts := jsSplitChar '-' dataISO.data []
  let ano := partStr (parts.get? 0)
  let mes := partStr (parts.get? 1)
  let dia := partStr (parts.get? 2)
  dia ++ "/" ++ mes ++ "/" ++ ano

/-- A decimal digit character. -/
def digitChar (d : Nat) : Char := Char.ofNat (48 + d)

/-- Fuel-driven decimal rendering of a natural number, most significant digit
first (structural recursion so that concrete instances evaluate). -/
def decDigitsAux : Nat → Nat → List Char
  | 0, _ => []
  | fuel + 1, n =>
      if n < 10 then [digitChar n]
      else decDigitsAux fuel (n / 10) ++ [digitChar (n % 10)]

/-- Decimal rendering of a natural number as a character list. -/
def decDigits (n : Nat) : List Char := decDigitsAux (n + 1) n

/-- Decimal rendering of a natural number as a string, the model of the
JavaScript template literal building the positional slot keys f0, f1, ... -/
def natDec (n : Nat) : String := ⟨decDigits n⟩

/-- Accumulator-style decimal parse of a character list, inverse to
`decDigits`. -/
def decVal : Nat → List Char → Nat
  | a, [] => a
  | a, c :: cs => decVal (a * 10 + (c.toNat - 48)) cs

/-- Inner loop of `mapearEntidades` (lines 154-160): for each positional index
`i`, look up slot `f` followed by the decimal index in the raw entity (a throw
if the raw entity is nullish); when the slot is truthy, assign its unwrapped
`$` payload under the i-th field name. -/
def assignFields (rawEntity : JVal) : List JVal → Nat → List (String × JVal) →
    Except Unit (List (String × JVal))
  | [], _, acc => .ok acc
  | fn :: rest, i, acc => do
      let slot ← getProp rawEntity ("f" ++ natDec i)
      if truthy slot then
        let v ← getProp slot "$"
        assignFields rawEntity rest (i + 1) (setProp acc (jsToString fn) v)
      else
        assignFields rawEntity rest (i + 1) acc

/-- (analise-service.ts lines 143-164) `mapearEntidades`: guard
`!entities || !entities.entity` returns `[]`; then
`entities.metadata.fields.field.map(f => f.name)` (which throws a TypeError on
a nullish intermediate or a non-array field list), normalization of the entity
list, and per-entity record construction. -/
def mapearEntidades (entities : JVal) : Except Unit (List JVal) :=
  if !truthy entities then .ok []
  else do
    let ent ← getProp entities "entity"
    if !truthy ent then return []
    let md ← getProp entities "metadata"
    let flds ← getProp md "fields"
    let fieldJ ← getProp flds "field"
    let fieldList ← (match fieldJ with
      | .arr xs => Except.ok xs
      | _ => Except.error ())
    let fieldNames ← fieldList.mapM (fun f => getProp f "name")
    let entityArray := (match ent with | .arr xs => xs | e => [e])
    entityArray.mapM (fun re => do
      let flds ← assignFields re fieldNames 0 []
      return JVal.obj flds)

/-! ## TokenManager: sequential retry behavior of `obterToken` (lines 35-90)

The single-caller retry logic. The login transport is an oracle mapping the
attempt number (the `retryCount` argument of the recursive call) to an
outcome. The trace records the backoff delays and the number of attempts. -/

/-- Outcome of one login POST as observed by the `catch` block of
`obterToken` (or a 200 response body). -/
inductive LoginOutcome where
  | ok (data : JVal)
  | httpErr (status : Nat)
  | timeout
  | netErr (msg : String)
deriving Repr

/-- `erro.message` for a failed axios call (the axios text for an HTTP error
status; the message carried by any other network error). -/
def loginErrMsg : LoginOutcome → String
  | .ok _ => ""
  | .httpErr s => "Request failed with status code " ++ toString s
  | .timeout => "Timeout ao conectar com Sankhya"
  | .netErr m => m

/-- Line 69: `erro.code === ECONNABORTED or erro.response?.status === 500` —
the login retry predicate. Note the status comparison is equality with 500,
not a range check over all 5xx. -/
def loginRetryable : LoginOutcome → Bool
  | .timeout => true
  | .httpErr s => s == 500
  | _ => false

/-- Engine-dependent TypeError text for reading a property of a nullish
login response body; no claim depends on this string. -/
def typeErrorMsg : String := "Cannot read properties of null"

/-- (lines 35-90) `obterToken`, sequential single-caller view: the cached
token is absent, so each activation runs the acquisition body.
`MAX_RETRIES = 3`, `RETRY_DELAY = 2000`; a retryable failure recurses with
`retryCount + 1` after a delay of `RETRY_DELAY * (retryCount + 1)`; any other
failure raises the authentication error immediately.  Returns the result, the
delays waited, and the total number of login attempts made. -/
def obterToken (oracle : Nat → LoginOutcome) (retryCount : Nat)
    (delays : List Nat) (attempts : Nat) :
    Except String JVal × List Nat × Nat :=
  match oracle retryCount with
  | .ok body =>
      match getProp body "bearerToken" with
      | .error _ =>
          (.error ("Falha na autenticação Sankhya: " ++ typeErrorMsg),
           delays, attempts + 1)
      | .ok bt =>
          let tokenV := if truthy bt then bt else jsOptProp body "token"
          if truthy tokenV then (.ok tokenV, delays, attempts + 1)
          else
            (.error "Falha na autenticação Sankhya: Token não encontrado na resposta de login.",
             delays, attempts + 1)
  | o =>
      if h : loginRetryable o ∧ retryCount < 3 then
        obterToken oracle (retryCount + 1)
          (delays ++ [2000 * (retryCount + 1)]) (attempts + 1)
      else
        (.error ("Falha na autenticação Sankhya: " ++ loginErrMsg o),
         delays, attempts + 1)
termination_by 3 - retryCount
decreasing_by omega

/-! ## RequestExecutor: `fazerRequisicaoAutenticada` (lines 92-136)

Token acquisition is modelled at the point of use with the cached-token
check of `obterToken` (acquisition itself assumed to succeed — its own retry
behavior is `obterToken` above); tokens are numbered by login order, so a
fresh login always yields a token distinct from all earlier ones. -/

/-- Outcome of one authenticated POST as observed by the `catch` block of
`fazerRequisicaoAutenticada` (or a success body). -/
inductive ReqOutcome where
  | ok (data : JVal)
  | httpErr (status : Nat)
  | timeout
  | netErr (msg : String)
deriving Repr

/-- What `fazerRequisicaoAutenticada` throws: the session-expired error of
line 124, or the original error rethrown at line 134. -/
inductive ReqError where
  | sessionExpired
  | raised (o : ReqOutcome)
deriving Repr

/-- Module-level token state threaded through the executor, together with an
observation trace (tokens attached per attempt, invalidation count, backoff
delays). -/
structure ReqState where
  cachedToken : Option Nat
  loginCount : Nat
  invalidations : Nat
  tokensUsed : List Nat
  delays : List Nat
deriving Repr, DecidableEq

/-- Lines 37-39 and 64: return the cached token if present, otherwise cache
and return the token produced by the next login (tokens numbered by login
order). -/
def obterTokenOk (s : ReqState) : Nat × ReqState :=
  match s.cachedToken with
  | some t => (t, s)
  | none => (s.loginCount,
      { s with cachedToken := some s.loginCount, loginCount := s.loginCount + 1 })

/-- Line 115: `erro.response && (status === 401 || status === 403)`. -/
def isAuthFailure : ReqOutcome → Bool
  | .httpErr s => s == 401 || s == 403
  | _ => false

/-- Line 128: `erro.code === ECONNABORTED || erro.response?.status >= 500`
(an error without a response has an undefined status, which is not `>= 500`). -/
def isTransient : ReqOutcome → Bool
  | .timeout => true
  | .httpErr s => 500 ≤ s
  | _ => false

/-- (lines 92-136) `fazerRequisicaoAutenticada`: obtain a token, attach it,
issue the request (oracle indexed by the `retryCount` of the activation).
On 401/403: null the cached token and, when `retryCount < 1`, retry once
after 500ms, else throw the session-expired error.  On timeout/5xx with
`retryCount < MAX_RETRIES` (2): retry after `1000 * (retryCount + 1)` ms.
Anything else is rethrown. -/
def fazerRequisicaoAutenticada (oracle : Nat → ReqOutcome) (retryCount : Nat)
    (s : ReqState) : Except ReqError JVal × ReqState :=
  let ts := obterTokenOk s
  let s2 := { ts.2 with tokensUsed := ts.2.tokensUsed ++ [ts.1] }
  match oracle retryCount with
  | .ok d => (.ok d, s2)
  | o =>
      if isAuthFailure o then
        let s3 := { s2 with cachedToken := none,
                            invalidations := s2.invalidations + 1 }
        if h : retryCount < 1 then
          fazerRequisicaoAutenticada oracle (retryCount + 1)
            { s3 with delays := s3.delays ++ [500] }
        else (.error .sessionExpired, s3)
      else if h : isTransient o ∧ retryCount < 2 then
        fazerRequisicaoAutenticada oracle (retryCount + 1)
          { s2 with delays := s2.delays ++ [1000 * (retryCount + 1)] }
      else (.error (.raised o), s2)
termination_by 2 - retryCount
decreasing_by all_goals omega

/-! ## TokenManager under concurrency: the single-flight machinery

A small-step model of the module-level state `cachedToken` / `tokenPromise`
(lines 32-33) under the cooperative single-threaded scheduler.  Each step
below is one synchronous segment of the code between `await` points.
`loginsInFlight` carries (promise id, retryCount) for every acquisition body
whose login request has been started and has not settled; `loginsIssued`
counts login requests over the whole history. -/

/-- What the synchronous prefix of a call to `obterToken()` hands back to the
caller: the cached token (line 38) or the promise the caller awaits
(lines 43 and 89). -/
inductive CallerView where
  | cached (t : Nat)
  | awaits (p : Nat)
deriving Repr, DecidableEq

/-- The module-level token state plus instrumentation. -/
structure TMState where
  cachedToken : Option Nat
  tokenPromise : Option Nat
  nextPromiseId : Nat
  loginsInFlight : List (Nat × Nat)
  loginsIssued : Nat
deriving Repr, DecidableEq

/-- Fresh module state: no cached token, no acquisition in flight. -/
def idleTM : TMState :=
  { cachedToken := none, tokenPromise := none, nextPromiseId := 0,
    loginsInFlight := [], loginsIssued := 0 }

/-- (lines 37-50, 89) The synchronous prefix of `obterToken()`: return the
cached token if present; else join the pending acquisition if one is
registered; else create the acquisition promise (which will issue one login
request) and register it in `tokenPromise`. -/
def callerEnter (s : TMState) : CallerView × TMState :=
  match s.cachedToken with
  | some t => (.cached t, s)
  | none =>
      match s.tokenPromise with
      | some p => (.awaits p, s)
      | none =>
          (.awaits s.nextPromiseId,
           { s with tokenPromise := some s.nextPromiseId,
                    nextPromiseId := s.nextPromiseId + 1,
                    loginsInFlight := (s.nextPromiseId, 0) :: s.loginsInFlight,
                    loginsIssued := s.loginsIssued + 1 })

/-- (lines 64-66, 85) The acquisition body of promise `p` receives a token:
cache it; the `finally` block clears `tokenPromise` unconditionally. -/
def loginSucceeds (s : TMState) (p rc : Nat) (tok : Nat) : TMState :=
  if (p, rc) ∈ s.loginsInFlight then
    { s with cachedToken := some tok,
             loginsInFlight := s.loginsInFlight.erase (p, rc),
             tokenPromise := none }
  else s

/-- (lines 76-85) The acquisition body of promise `p` fails and does not
retry (non-retryable error, or retries exhausted): null the cached token and
`tokenPromise`, reject the promise. -/
def loginFailsFinal (s : TMState) (p rc : Nat) : TMState :=
  if (p, rc) ∈ s.loginsInFlight then
    { s with cachedToken := none,
             loginsInFlight := s.loginsInFlight.erase (p, rc),
             tokenPromise := none }
  else s

/-- (lines 69-73, 85) The acquisition body of promise `p` fails with a
retryable error while `rc < 3`: after the backoff delay it sets
`tokenPromise = null` (line 72), recursion into `obterToken(rc + 1)` creates
a fresh acquisition promise and stores it in `tokenPromise`, and then —
because `return obterToken(...)` passes through the `finally` block of the
OUTER body (line 85) — `tokenPromise` is nulled again, even though the fresh
login request is still in flight.  This whole resumption is one synchronous
segment. -/
def loginFailsRetry (s : TMState) (p rc : Nat) : TMState :=
  if (p, rc) ∈ s.loginsInFlight ∧ rc < 3 then
    { s with loginsInFlight :=
               (s.nextPromiseId, rc + 1) :: s.loginsInFlight.erase (p, rc),
             nextPromiseId := s.nextPromiseId + 1,
             loginsIssued := s.loginsIssued + 1,
             tokenPromise := none }
  else s

/-- Iterate `callerEnter` for a batch of concurrent callers, collecting the
views handed to each caller in order. -/
def callersEnter : Nat → TMState → List CallerView × TMState
  | 0, s => ([], s)
  | n + 1, s =>
      let vs := callerEnter s
      let rest := callersEnter n vs.2
      (vs.1 :: rest.1, rest.2)

/-! ## AggregationOrchestrator: `buscarDadosAnalise` (lines 166-526)

Dataset queries resolve through an oracle mapping the position of the
request in the issue order (across the whole run history) to the settled
result of the corresponding `fazerRequisicaoAutenticada` call — `.err` for a
rejection after the executor exhausted its own retries.  The cache
collaborator is a key-value list whose entries are live (unexpired); the
clock models `new Date().toISOString()` as a strictly increasing counter. -/

/-- `FiltroAnalise` (lines 3-6). -/
structure FiltroAnalise where
  dataInicio : String
  dataFim : String
deriving Repr, DecidableEq

/-- The scalar metrics of the object returned on the cache-miss path
(lines 511-520), absent from the cached `resultado` (lines 464-476). -/
structure Metricas where
  totalLeads : Nat
  totalAtividades : Nat
  totalPedidos : Nat
  totalProdutos : Nat
  totalClientes : Nat
  totalFinanceiro : Nat
  valorTotalPedidos : Int
  valorTotalFinanceiro : Int
  valorRecebido : Int
  valorPendente : Int
deriving Repr, DecidableEq

/-- `DadosAnalise` (lines 8-20) as a JavaScript object: `metricas = none`
models the cached `resultado`, which carries no metric keys; `some` models
the extended object literal returned at lines 498-521.  Deep equality of the
two JavaScript objects is structural equality here. -/
structure DadosAnalise where
  leads : List JVal
  produtosLeads : List JVal
  estagiosFunis : List JVal
  funis : List JVal
  atividades : List JVal
  pedidos : List JVal
  produtos : List JVal
  clientes : List JVal
  financeiro : List JVal
  filtro : FiltroAnalise
  timestamp : Nat
  metricas : Option Metricas
deriving Repr

/-- One CRUD query body: root entity, presentation flag, fieldset CSV,
criteria expression and optional ordering (the remaining payload members are
the constants `offsetPage: null` and `disableRowsLimit: true` on every
query). -/
structure QueryPayload where
  rootEntity : String
  includePresentationFields : String
  fieldList : String
  criteria : String
  ordering : Option String
deriving Repr, DecidableEq

/-- Settled result of one executor call. -/
inductive QResult where
  | ok (body : JVal)
  | err (msg : String)
deriving Repr

/-- Cache contents, logical clock, and the log of issued queries. -/
structure OrchState where
  cache : List (String × DadosAnalise × Nat)
  clock : Nat
  issued : List QueryPayload
deriving Repr

/-- Send one query: its settled result is the oracle at the current position
of the issue log. -/
def issueQuery (oracle : Nat → QResult) (st : OrchState) (p : QueryPayload) :
    QResult × OrchState :=
  (oracle st.issued.length, { st with issued := st.issued ++ [p] })

/-- `redisCacheService.set`: last write wins (the fresh entry shadows any
earlier one with the same key). -/
def setCache (c : List (String × DadosAnalise × Nat)) (k : String)
    (v : DadosAnalise × Nat) : List (String × DadosAnalise × Nat) :=
  (k, v) :: c

/-- Line 172: the cache key. -/
def cacheKeyOf (userId : Nat) (filtro : FiltroAnalise) : String :=
  "analise:" ++ toString userId ++ ":" ++ filtro.dataInicio ++ ":" ++ filtro.dataFim

/-- (lines 188-191) The leads criteria: the date-range and active clauses,
plus the user clause exactly when the caller is not an admin. -/
def criteriaLeads (filtro : FiltroAnalise) (userId : Nat) (isAdmin : Bool) : String :=
  let base := "DATA_CRIACAO BETWEEN '" ++ formatarDataParaSankhya filtro.dataInicio
    ++ "' AND '" ++ formatarDataParaSankhya filtro.dataFim ++ "' AND ATIVO = 'S'"
  if !isAdmin then base ++ " AND CODUSUARIO = " ++ toString userId else base

/-- (lines 193-210) The leads query payload. -/
def leadsPayload (filtro : FiltroAnalise) (userId : Nat) (isAdmin : Bool) : QueryPayload :=
  { rootEntity := "AD_LEADS", includePresentationFields := "S",
    fieldList := "CODLEAD, NOME, DESCRICAO, VALOR, CODESTAGIO, DATA_VENCIMENTO, TIPO_TAG, COR_TAG, CODPARC, CODFUNIL, CODUSUARIO, ATIVO, DATA_CRIACAO, DATA_ATUALIZACAO, STATUS_LEAD, MOTIVO_PERDA, DATA_CONCLUSAO",
    criteria := criteriaLeads filtro userId isAdmin, ordering := none }

/-- (lines 213-232) The activities query payload. -/
def atividadesPayload (dIni dFim : String) : QueryPayload :=
  { rootEntity := "AD_ADLEADSATIVIDADES", includePresentationFields := "S",
    fieldList := "CODATIVIDADE, CODLEAD, TIPO, DESCRICAO, DATA_HORA, DATA_INICIO, DATA_FIM, CODUSUARIO, DADOS_COMPLEMENTARES, COR, ORDEM, ATIVO, STATUS",
    criteria := "ATIVO = 'S' AND (DATA_HORA BETWEEN '" ++ dIni ++ "' AND '" ++ dFim
      ++ "' OR DATA_HORA IS NULL)",
    ordering := none }

/-- (lines 235-252) The funnels query payload. -/
def funisPayload : QueryPayload :=
  { rootEntity := "AD_FUNIS", includePresentationFields := "S",
    fieldList := "CODFUNIL, NOME, DESCRICAO, COR, ATIVO, DATA_CRIACAO, DATA_ATUALIZACAO",
    criteria := "ATIVO = 'S'", ordering := none }

/-- (lines 255-272) The funnel-stages query payload. -/
def estagiosPayload : QueryPayload :=
  { rootEntity := "AD_FUNISESTAGIOS", includePresentationFields := "S",
    fieldList := "CODESTAGIO, CODFUNIL, NOME, ORDEM, COR, ATIVO",
    criteria := "ATIVO = 'S'", ordering := none }

/-- (lines 300-324) The sales-orders query payload. -/
def pedidosPayload (dIni dFim : String) : QueryPayload :=
  { rootEntity := "CabecalhoNota", includePresentationFields := "S",
    fieldList := "NUNOTA, CODPARC, CODVEND, VLRNOTA, DTNEG",
    criteria := "TIPMOV = 'P' AND DTNEG BETWEEN TO_DATE('" ++ dIni
      ++ "', 'DD/MM/YYYY') AND TO_DATE('" ++ dFim ++ "', 'DD/MM/YYYY')",
    ordering := some "DTNEG DESC, NUNOTA DESC" }

/-- (lines 334-350) The products query payload. -/
def produtosPayload : QueryPayload :=
  { rootEntity := "Produto", includePresentationFields := "N",
    fieldList := "CODPROD, DESCRPROD, ATIVO",
    criteria := "ATIVO = 'S'", ordering := none }

/-- (lines 357-373) The clients query payload. -/
def clientesPayload : QueryPayload :=
  { rootEntity := "Parceiro", includePresentationFields := "N",
    fieldList := "CODPARC, NOMEPARC, CGC_CPF, CLIENTE, ATIVO",
    criteria := "CLIENTE = 'S' AND ATIVO = 'S'", ordering := none }

/-- (lines 411-417) One dataset result mapped to records: a rejected query
was replaced by `null` by its `.catch` handler, so the optional chain is
undefined and the dataset is `[]`; a settled body with truthy
`responseBody.entities` goes through `mapearEntidades`, whose TypeError (not
caught per-dataset) propagates. -/
def mapDataset (r : QResult) : Except String (List JVal) :=
  match r with
  | .err _ => .ok []
  | .ok body =>
      let ents := jsOptProp (jsOptProp body "responseBody") "entities"
      if truthy ents then (mapearEntidades ents).mapError (fun _ => "TypeError")
      else .ok []

/-- `parseFloat(x) || 0` restricted to integer-valued numerics (no claim
depends on fractional values or on prefix parsing of malformed numerals). -/
def parseFloatOr0 : JVal → Int
  | .num n => n
  | .str s => (s.toInt?).getD 0
  | _ => 0

/-- (line 496) Sum of the monetary field over the mapped orders. -/
def valorTotalPedidos (pedidos : List JVal) : Int :=
  pedidos.foldl (fun sum p => sum + parseFloatOr0 (jsOptProp p "VLRNOTA")) 0

/-- (lines 432-457) The lead-products follow-up: issued only when leads were
found, filtered by the joined lead identifiers, and NOT wrapped in a
`.catch` — a rejection propagates. -/
def produtosLeadsStep (oracle : Nat → QResult) (st : OrchState)
    (leads : List JVal) : Except String (List JVal) × OrchState :=
  if leads.length > 0 then
    let codLeadsStr := String.intercalate ","
      (jsJoinParts (leads.map (fun l => jsOptProp l "CODLEAD")))
    let p : QueryPayload :=
      { rootEntity := "AD_ADLEADSPRODUTOS", includePresentationFields := "S",
        fieldList := "CODITEM, CODLEAD, CODPROD, DESCRPROD, QUANTIDADE, VLRUNIT, VLRTOTAL, ATIVO, DATA_INCLUSAO",
        criteria := "CODLEAD IN (" ++ codLeadsStr ++ ") AND ATIVO = 'S'",
        ordering := none }
    let rs := issueQuery oracle st p
    match rs.1 with
    | .err m => (.error m, rs.2)
    | .ok body =>
        let ents := jsOptProp (jsOptProp body "responseBody") "entities"
        (if truthy ents then (mapearEntidades ents).mapError (fun _ => "TypeError")
         else .ok [], rs.2)
  else (.ok [], st)

/-- The seven individually-caught dataset results mapped in source order
(lines 411-417); a mapping TypeError aborts the whole fetch. -/
def mapSete (r1 r2 r3 r4 r5 r6 r7 : QResult) :
    Except String (List JVal × List JVal × List JVal × List JVal × List JVal × List JVal × List JVal) := do
  let leads ← mapDataset r1
  let atividades ← mapDataset r2
  let funis ← mapDataset r3
  let estagios ← mapDataset r4
  let pedidos ← mapDataset r5
  let produtos ← mapDataset r6
  let clientes ← mapDataset r7
  return (leads, atividades, funis, estagios, pedidos, produtos, clientes)

/-- (lines 166-526) `buscarDadosAnalise`: cache check; on a miss, the seven
sequential individually-caught queries, mapping, the unguarded lead-products
follow-up, the cached `resultado` (30-minute TTL, no metric keys), and the
returned object literal (fresh timestamp, metric keys). -/
def buscarDadosAnalise (oracle : Nat → QResult) (filtro : FiltroAnalise)
    (userId : Nat) (isAdmin : Bool) (st0 : OrchState) :
    Except String DadosAnalise × OrchState :=
  let cacheKey := cacheKeyOf userId filtro
  match st0.cache.lookup cacheKey with
  | some entry => (.ok entry.1, st0)
  | none =>
      let dIni := formatarDataParaSankhya filtro.dataInicio
      let dFim := formatarDataParaSankhya filtro.dataFim
      let q1 := issueQuery oracle st0 (leadsPayload filtro userId isAdmin)
      let q2 := issueQuery oracle q1.2 (atividadesPayload dIni dFim)
      let q3 := issueQuery oracle q2.2 funisPayload
      let q4 := issueQuery oracle q3.2 estagiosPayload
      let q5 := issueQuery oracle q4.2 (pedidosPayload dIni dFim)
      let q6 := issueQuery oracle q5.2 produtosPayload
      let q7 := issueQuery oracle q6.2 clientesPayload
      match mapSete q1.1 q2.1 q3.1 q4.1 q5.1 q6.1 q7.1 with
      | .error e => (.error e, q7.2)
      | .ok (leads, atividades, funis, estagiosFunis, pedidos, produtos, clientes) =>
          let pls := produtosLeadsStep oracle q7.2 leads
          match pls.1 with
          | .error e => (.error e, pls.2)
          | .ok produtosLeads =>
              let st8 := pls.2
              let resultado : DadosAnalise :=
                { leads := leads, produtosLeads := produtosLeads,
                  estagiosFunis := estagiosFunis, funis := funis,
                  atividades := atividades, pedidos := pedidos,
                  produtos := produtos, clientes := clientes,
                  financeiro := [], filtro := filtro,
                  timestamp := st8.clock, metricas := none }
              let st9 : OrchState :=
                { st8 with cache := setCache st8.cache cacheKey (resultado, 30 * 60),
                           clock := st8.clock + 1 }
              let ret : DadosAnalise :=
                { resultado with
                  timestamp := st9.clock,
                  metricas := some
                    { totalLeads := leads.length,
                      totalAtividades := atividades.length,
                      totalPedidos := pedidos.length,
                      totalProdutos := produtos.length,
                      totalClientes := clientes.length,
                      totalFinanceiro := 0,
                      valorTotalPedidos := valorTotalPedidos pedidos,
                      valorTotalFinanceiro := 0,
                      valorRecebido := 0,
                      valorPendente := 0 } }
              (.ok ret, { st9 with clock := st9.clock + 1 })

/-! ## Auxiliary definitions used by the theorem statements -/

/-- `pat` occurs contiguously inside `l` (substring containment on
character lists). -/
def containsSub (pat l : List Char) : Prop := ∃ a b, l = a ++ pat ++ b

/-- The wire shape of one positional slot: a one-field container wrapping
the value. -/
def mkSlot (v : JVal) : JVal := .obj [("$", v)]

/-- A raw entity built from a row of optional slot values: slot `b + k`
is present (as a wrapper) exactly when the row has a value at offset `k`;
absent slots have no key at all. -/
def mkSlots (b : Nat) : List (Option JVal) → List (String × JVal)
  | [] => []
  | some v :: rest => ("f" ++ natDec b, mkSlot v) :: mkSlots (b + 1) rest
  | none :: rest => mkSlots (b + 1) rest

/-- A raw entity object for a row of optional slot values. -/
def mkEntity (row : List (Option JVal)) : JVal := .obj (mkSlots 0 row)

/-- A well-formed raw collection: a metadata block listing the field names
in positional order, and an entity member (an array of entities, or one
bare entity). -/
def mkCollection (names : List String) (entityJ : JVal) : JVal :=
  .obj [("metadata", .obj [("fields", .obj [("field",
          .arr (names.map (fun n => .obj [("name", .str n)])))])]),
        ("entity", entityJ)]

/-- The record the specification prescribes for one entity: walk the field
names in index order from offset `i`; a present slot contributes its value
under the matching name, an absent slot contributes nothing. -/
def expectedRecAux (i : Nat) (names : List String) (row : List (Option JVal)) :
    List (String × JVal) :=
  match names with
  | [] => []
  | n :: rest =>
      match row.getD i none with
      | some v => (n, v) :: expectedRecAux (i + 1) rest row
      | none => expectedRecAux (i + 1) rest row

/-- The record prescribed for one entity, from offset 0. -/
def expectedRec (names : List String) (row : List (Option JVal)) :
    List (String × JVal) :=
  expectedRecAux 0 names row

/-- The dataset a settled executor result contributes when its mapping does
not throw. -/
def datasetOf (oracle : Nat → QResult) (i : Nat) : List JVal :=
  match mapDataset (oracle i) with
  | .ok l => l
  | .error _ => []

/-- Responses behind `oracle` are well shaped: whenever a query settles with
a body whose `responseBody.entities` is truthy, `mapearEntidades` does not
throw on it. -/
def WellShaped (oracle : Nat → QResult) : Prop :=
  ∀ i body, oracle i = .ok body →
    truthy (jsOptProp (jsOptProp body "responseBody") "entities") = true →
    (mapearEntidades (jsOptProp (jsOptProp body "responseBody") "entities")).isOk = true

/-- The metric block computed by the return literal of lines 511-520 from a
stored snapshot. -/
def metricasOf (res : DadosAnalise) : Metricas :=
  { totalLeads := res.leads.length,
    totalAtividades := res.atividades.length,
    totalPedidos := res.pedidos.length,
    totalProdutos := res.produtos.length,
    totalClientes := res.clientes.length,
    totalFinanceiro := 0,
    valorTotalPedidos := valorTotalPedidos res.pedidos,
    valorTotalFinanceiro := 0,
    valorRecebido := 0,
    valorPendente := 0 }

/-- The eight root entities `buscarDadosAnalise` can query; none of them is
a receivables/financial entity. -/
def allowedRootEntities : List String :=
  ["AD_LEADS", "AD_ADLEADSATIVIDADES", "AD_FUNIS", "AD_FUNISESTAGIOS",
   "CabecalhoNota", "Produto", "Parceiro", "AD_ADLEADSPRODUTOS"]

/-- The failure policy one run of the orchestrator actually follows, for a
run whose issue log starts at position `b`: the run throws exactly when the
leads dataset is non-empty AND the unwrapped lead-products follow-up query
is rejected (whose message then propagates); every returned snapshot carries
the seven individually-caught datasets in source order, a rejected caught
query contributing `datasetOf`'s empty list. -/
def FailurePolicy (oracle : Nat → QResult)
    (run : Except String DadosAnalise) (b : Nat) : Prop :=
  (∀ m, run = .error m ↔
    datasetOf oracle b ≠ [] ∧ oracle (b + 7) = QResult.err m) ∧
  (∀ snap, run = .ok snap →
    snap.leads = datasetOf oracle b ∧
    snap.atividades = datasetOf oracle (b + 1) ∧
    snap.funis = datasetOf oracle (b + 2) ∧
    snap.estagiosFunis = datasetOf oracle (b + 3) ∧
    snap.pedidos = datasetOf oracle (b + 4) ∧
    snap.produtos = datasetOf oracle (b + 5) ∧
    snap.clientes = datasetOf oracle (b + 6))

/-! # Theorems -/

/-! ## C3 — EntityMapper totality -/

/-- C3 counterexample: the claim says any malformed raw collection —
including one with missing metadata — yields an empty sequence, but a
collection whose `entity` member is truthy while `metadata` is absent makes
`mapearEntidades` throw a TypeError (reading `fields` of `undefined`,
line 148). -/
theorem mapearEntidades_throws_on_missing_metadata :
    mapearEntidades (.obj [("entity", .num 1)]) = .error () := rfl

/-- C3 amended: `mapearEntidades` is pure, and it returns the empty sequence
without failing whenever the input collection is absent (falsy) or has no
truthy `entity` member; a truthy `entity` with missing or ill-shaped
metadata instead throws. -/
theorem mapearEntidades_empty_on_absent :
    (∀ e, truthy e = false → mapearEntidades e = .ok []) ∧
    (∀ e v, getProp e "entity" = .ok v → truthy v = false →
      mapearEntidades e = .ok []) := by
  constructor
  · intro e h
    simp [mapearEntidades, h]
  · intro e v hv htr
    by_cases ht : truthy e
    · simp [mapearEntidades, ht, hv, htr, Except.bind, Bind.bind, pure, Except.pure]
    · simp [mapearEntidades, ht]

/-- C3 witness: the amended theorem applied to the absent collection `null`
and to a collection whose `entity` member is `undefined`. -/
theorem mapearEntidades_empty_on_absent_witness :
    mapearEntidades JVal.null = .ok [] ∧
    mapearEntidades (.obj [("entity", JVal.undef)]) = .ok [] :=
  ⟨mapearEntidades_empty_on_absent.1 JVal.null rfl,
   mapearEntidades_empty_on_absent.2 (.obj [("entity", JVal.undef)]) JVal.undef rfl rfl⟩

/-! ## C4 — token acquisition retry policy -/

/-- One retryable login failure with retries left recurses with the next
attempt number after the linear-backoff delay. -/
theorem obterToken_retry_step (oracle : Nat → LoginOutcome) (rc : Nat)
    (ds : List Nat) (att : Nat)
    (h : loginRetryable (oracle rc) = true) (hrc : rc < 3) :
    obterToken oracle rc ds att =
      obterToken oracle (rc + 1) (ds ++ [2000 * (rc + 1)]) (att + 1) := by
  rw [obterToken]
  rcases ho : oracle rc with body | s | _ | m <;> rw [ho] at h <;>
    simp_all [loginRetryable]

/-- A non-retryable login failure raises the authentication error at once. -/
theorem obterToken_stop (oracle : Nat → LoginOutcome) (rc : Nat)
    (ds : List Nat) (att : Nat)
    (h : loginRetryable (oracle rc) = false) (hok : ∀ d, oracle rc ≠ .ok d) :
    obterToken oracle rc ds att =
      (.error ("Falha na autenticação Sankhya: " ++ loginErrMsg (oracle rc)),
       ds, att + 1) := by
  rw [obterToken]
  rcases ho : oracle rc with body | s | _ | m
  · exact absurd ho (hok body)
  · rw [ho] at h; simp_all [loginRetryable]
  · rw [ho] at h; simp_all [loginRetryable]
  · rw [ho] at h; simp_all [loginRetryable]

/-- A retryable login failure with retries exhausted (fourth attempt) raises
the authentication error. -/
theorem obterToken_exhaust (oracle : Nat → LoginOutcome)
    (ds : List Nat) (att : Nat) (h : loginRetryable (oracle 3) = true) :
    obterToken oracle 3 ds att =
      (.error ("Falha na autenticação Sankhya: " ++ loginErrMsg (oracle 3)),
       ds, att + 1) := by
  rw [obterToken]
  rcases ho : oracle 3 with body | s | _ | m <;> rw [ho] at h <;>
    simp_all [loginRetryable]

/-- C4 counterexample: an HTTP 502 login failure is a server-error (5xx)
response, yet `obterToken` makes exactly one attempt, waits no delay, and
raises the authentication error immediately — the retry predicate of
line 69 compares the status with 500 only. -/
theorem obterToken_no_retry_on_502 :
    obterToken (fun _ => .httpErr 502) 0 [] 0 =
      (.error "Falha na autenticação Sankhya: Request failed with status code 502",
       [], 1) := by
  rw [obterToken_stop (fun _ => .httpErr 502) 0 [] 0 rfl (fun d h => by cases h)]
  rfl

/-- C4 amended: a failed login attempt is retried, up to 3 times with delay
2000ms times the attempt number, exactly when the failure is a timeout or an
HTTP 500 response (not an arbitrary 5xx); any other failure raises the
authentication error immediately with no retry. -/
theorem obterToken_retry_policy :
    (∀ oracle, (∀ i, i ≤ 3 → loginRetryable (oracle i) = true) →
      obterToken oracle 0 [] 0 =
        (.error ("Falha na autenticação Sankhya: " ++ loginErrMsg (oracle 3)),
         [2000, 4000, 6000], 4)) ∧
    (∀ oracle, loginRetryable (oracle 0) = false → (∀ d, oracle 0 ≠ .ok d) →
      obterToken oracle 0 [] 0 =
        (.error ("Falha na autenticação Sankhya: " ++ loginErrMsg (oracle 0)),
         [], 1)) := by
  constructor
  · intro oracle h
    rw [obterToken_retry_step oracle 0 [] 0 (h 0 (by omega)) (by omega),
        obterToken_retry_step oracle 1 _ _ (h 1 (by omega)) (by omega),
        obterToken_retry_step oracle 2 _ _ (h 2 (by omega)) (by omega),
        obterToken_exhaust oracle _ _ (h 3 (by omega))]
    norm_num
  · intro oracle h hok
    exact obterToken_stop oracle 0 [] 0 h hok

/-- C4 witness: a transport that always times out is retried three times
with delays 2000, 4000, 6000 and fails on the fourth attempt. -/
theorem obterToken_retry_policy_witness :
    obterToken (fun _ => .timeout) 0 [] 0 =
      (.error "Falha na autenticação Sankhya: Timeout ao conectar com Sankhya",
       [2000, 4000, 6000], 4) := by
  have h := obterToken_retry_policy.1 (fun _ => .timeout) (fun i _ => rfl)
  simpa [loginErrMsg] using h

/-! ## C6 — single-flight token acquisition -/

/-- C6: the single-flight guarantee holds for plain concurrent callers (ten
callers entering while no token is cached all receive the same pending
acquisition and exactly one login is issued), but it is broken by the retry
path: after caller A's login fails with a retryable error, the resumption
creates the retry promise and then the `finally` block of the outer
acquisition body (line 85) nulls `tokenPromise` while the retry login is
still in flight; a caller B entering at that point finds no registered
acquisition, creates a second one, and a second concurrent login request is
issued — two in-flight login requests exist at once and three logins have
been issued, contradicting the single-flight invariant stated by the spec
and by the comment at line 49 of the source. -/
theorem tokenPromise_single_flight_violation :
    (callersEnter 10 idleTM).1 = List.replicate 10 (CallerView.awaits 0) ∧
    (callersEnter 10 idleTM).2.loginsIssued = 1 ∧
    (callerEnter (loginFailsRetry (callerEnter idleTM).2 0 0)).1 =
      CallerView.awaits 2 ∧
    (callerEnter (loginFailsRetry (callerEnter idleTM).2 0 0)).2.loginsInFlight =
      [(2, 0), (1, 1)] ∧
    (callerEnter (loginFailsRetry (callerEnter idleTM).2 0 0)).2.loginsIssued = 3 := by
  decide

/-! ## C5 and C8 — authenticated request retry behavior -/

/-- C5 amended: a 401/403 on the FIRST attempt invalidates the cached token
and the call is retried exactly once with a freshly acquired token (the
retry token differs from the one the failing attempt used, given the state
invariant that any cached token was produced by an earlier login); when the
retry succeeds the call returns its data after exactly one invalidation, one
500ms wait and two attempts; when the retry also fails with 401/403 the call
fails with the session-expired error after exactly two attempts and no
further retries.  But the auth-retry budget shares `retryCount` with the
transient-retry loop (line 118 checks `retryCount < 1`): a 401/403 that
follows a transient (timeout/5xx) retry still invalidates the token, yet the
call throws the session-expired error immediately — two attempts carrying
the SAME token, one invalidation, only the transient backoff delay, and no
fresh-token retry at all. -/
theorem fazerRequisicao_auth_retry :
    (∀ (oracle : Nat → ReqOutcome) (s : ReqState) (d : JVal),
      (∀ t, s.cachedToken = some t → t < s.loginCount) →
      isAuthFailure (oracle 0) = true → oracle 1 = .ok d →
      ∃ t0 t1, t0 ≠ t1 ∧
        (fazerRequisicaoAutenticada oracle 0 s).1 = .ok d ∧
        (fazerRequisicaoAutenticada oracle 0 s).2.tokensUsed
          = s.tokensUsed ++ [t0, t1] ∧
        (fazerRequisicaoAutenticada oracle 0 s).2.invalidations
          = s.invalidations + 1 ∧
        (fazerRequisicaoAutenticada oracle 0 s).2.delays = s.delays ++ [500] ∧
        (fazerRequisicaoAutenticada oracle 0 s).2.cachedToken = some t1) ∧
    (∀ (oracle : Nat → ReqOutcome) (s : ReqState),
      isAuthFailure (oracle 0) = true → isAuthFailure (oracle 1) = true →
      (fazerRequisicaoAutenticada oracle 0 s).1 = .error .sessionExpired ∧
      (fazerRequisicaoAutenticada oracle 0 s).2.tokensUsed.length
        = s.tokensUsed.length + 2 ∧
      (fazerRequisicaoAutenticada oracle 0 s).2.cachedToken = none) ∧
    (∀ (oracle : Nat → ReqOutcome) (s : ReqState),
      isTransient (oracle 0) = true → isAuthFailure (oracle 1) = true →
      ∃ t0,
        (fazerRequisicaoAutenticada oracle 0 s).1 = .error .sessionExpired ∧
        (fazerRequisicaoAutenticada oracle 0 s).2.tokensUsed
          = s.tokensUsed ++ [t0, t0] ∧
        (fazerRequisicaoAutenticada oracle 0 s).2.invalidations
          = s.invalidations + 1 ∧
        (fazerRequisicaoAutenticada oracle 0 s).2.delays
          = s.delays ++ [1000] ∧
        (fazerRequisicaoAutenticada oracle 0 s).2.cachedToken = none) := by
  refine ⟨?_, ?_, ?_⟩
  · intro oracle s d hinv h0 h1
    rcases ho0 : oracle 0 with d0 | st | _ | m <;> rw [ho0] at h0 <;>
      simp [isAuthFailure] at h0
    rcases hc : s.cachedToken with _ | t0
    · refine ⟨s.loginCount, s.loginCount + 1, by omega, ?_⟩
      rcases h0 with rfl | rfl <;>
        · rw [fazerRequisicaoAutenticada]
          simp only [ho0, hc, obterTokenOk, isAuthFailure]
          rw [fazerRequisicaoAutenticada]
          simp [h1, obterTokenOk]
    · refine ⟨t0, s.loginCount, fun h => by have := hinv t0 hc; omega, ?_⟩
      rcases h0 with rfl | rfl <;>
        · rw [fazerRequisicaoAutenticada]
          simp only [ho0, hc, obterTokenOk, isAuthFailure]
          rw [fazerRequisicaoAutenticada]
          simp [h1, obterTokenOk]
  · intro oracle s h0 h1
    rcases ho0 : oracle 0 with d0 | st | _ | m <;> rw [ho0] at h0 <;>
      simp [isAuthFailure] at h0
    rcases ho1 : oracle 1 with d1 | st1 | _ | m1 <;> rw [ho1] at h1 <;>
      simp [isAuthFailure] at h1
    rcases h0 with rfl | rfl <;> rcases h1 with rfl | rfl <;>
      rcases hc : s.cachedToken with _ | t0 <;>
      · rw [fazerRequisicaoAutenticada]
        simp only [ho0, hc, obterTokenOk, isAuthFailure]
        rw [fazerRequisicaoAutenticada]
        simp [ho1, obterTokenOk, isAuthFailure]
  · intro oracle s htr ha1
    rcases ho1 : oracle 1 with d1 | st1 | _ | m1 <;> rw [ho1] at ha1 <;>
      simp [isAuthFailure] at ha1
    rcases ho0 : oracle 0 with d0 | st | _ | m <;> rw [ho0] at htr <;>
      simp [isTransient] at htr
    · have h401 : (st == 401) = false := by simp; omega
      have h403 : (st == 403) = false := by simp; omega
      rcases ha1 with rfl | rfl <;> rcases hc : s.cachedToken with _ | t0
      · refine ⟨s.loginCount, ?_⟩
        rw [fazerRequisicaoAutenticada]
        simp [ho0, hc, obterTokenOk, isAuthFailure, isTransient, h401,
          h403, htr]
        rw [fazerRequisicaoAutenticada]
        simp [ho1, obterTokenOk, isAuthFailure]
      · refine ⟨t0, ?_⟩
        rw [fazerRequisicaoAutenticada]
        simp [ho0, hc, obterTokenOk, isAuthFailure, isTransient, h401,
          h403, htr]
        rw [fazerRequisicaoAutenticada]
        simp [ho1, obterTokenOk, isAuthFailure]
      · refine ⟨s.loginCount, ?_⟩
        rw [fazerRequisicaoAutenticada]
        simp [ho0, hc, obterTokenOk, isAuthFailure, isTransient, h401,
          h403, htr]
        rw [fazerRequisicaoAutenticada]
        simp [ho1, obterTokenOk, isAuthFailure]
      · refine ⟨t0, ?_⟩
        rw [fazerRequisicaoAutenticada]
        simp [ho0, hc, obterTokenOk, isAuthFailure, isTransient, h401,
          h403, htr]
        rw [fazerRequisicaoAutenticada]
        simp [ho1, obterTokenOk, isAuthFailure]
    · rcases ha1 with rfl | rfl <;> rcases hc : s.cachedToken with _ | t0
      · refine ⟨s.loginCount, ?_⟩
        rw [fazerRequisicaoAutenticada]
        simp [ho0, hc, obterTokenOk, isAuthFailure, isTransient]
        rw [fazerRequisicaoAutenticada]
        simp [ho1, obterTokenOk, isAuthFailure]
      · refine ⟨t0, ?_⟩
        rw [fazerRequisicaoAutenticada]
        simp [ho0, hc, obterTokenOk, isAuthFailure, isTransient]
        rw [fazerRequisicaoAutenticada]
        simp [ho1, obterTokenOk, isAuthFailure]
      · refine ⟨s.loginCount, ?_⟩
        rw [fazerRequisicaoAutenticada]
        simp [ho0, hc, obterTokenOk, isAuthFailure, isTransient]
        rw [fazerRequisicaoAutenticada]
        simp [ho1, obterTokenOk, isAuthFailure]
      · refine ⟨t0, ?_⟩
        rw [fazerRequisicaoAutenticada]
        simp [ho0, hc, obterTokenOk, isAuthFailure, isTransient]
        rw [fazerRequisicaoAutenticada]
        simp [ho1, obterTokenOk, isAuthFailure]

/-- C5 witness: a request that receives 401 once and succeeds on the retry,
starting from an empty token state. -/
theorem fazerRequisicao_auth_retry_witness :
    ∃ t0 t1, t0 ≠ t1 ∧
      (fazerRequisicaoAutenticada
        (fun i => if i = 0 then .httpErr 401 else .ok (.str "dados")) 0
        ⟨none, 0, 0, [], []⟩).1 = .ok (.str "dados") ∧
      (fazerRequisicaoAutenticada
        (fun i => if i = 0 then .httpErr 401 else .ok (.str "dados")) 0
        ⟨none, 0, 0, [], []⟩).2.tokensUsed = [] ++ [t0, t1] ∧
      (fazerRequisicaoAutenticada
        (fun i => if i = 0 then .httpErr 401 else .ok (.str "dados")) 0
        ⟨none, 0, 0, [], []⟩).2.invalidations = 0 + 1 ∧
      (fazerRequisicaoAutenticada
        (fun i => if i = 0 then .httpErr 401 else .ok (.str "dados")) 0
        ⟨none, 0, 0, [], []⟩).2.delays = [] ++ [500] ∧
      (fazerRequisicaoAutenticada
        (fun i => if i = 0 then .httpErr 401 else .ok (.str "dados")) 0
        ⟨none, 0, 0, [], []⟩).2.cachedToken = some t1 :=
  fazerRequisicao_auth_retry.1 _ _ _ (fun t h => by cases h) rfl rfl

/-- C5 counterexample: the claim says EVERY 401/403 response causes exactly
one invalidation and exactly one retry of the whole call with a freshly
acquired token.  But `retryCount` is shared with the transient-retry loop:
when the first attempt times out and the transient retry then receives a
401, the cached token is invalidated yet line 118's `retryCount < 1` check
already fails, so the call throws the session-expired error at once — both
attempts carried the same token 0, a single login was ever performed, and
only the 1000ms transient backoff elapsed: no fresh-token retry happens. -/
theorem fazerRequisicao_timeout_then_401_no_fresh_retry :
    fazerRequisicaoAutenticada
      (fun i => if i = 0 then ReqOutcome.timeout else ReqOutcome.httpErr 401) 0
      ⟨none, 0, 0, [], []⟩ =
    (.error .sessionExpired, ⟨none, 1, 1, [0, 0], [1000]⟩) := by
  rw [fazerRequisicaoAutenticada]
  simp [obterTokenOk, isAuthFailure, isTransient]
  rw [fazerRequisicaoAutenticada]
  simp [obterTokenOk, isAuthFailure]

/-- One transient failure (timeout or 5xx) with retries left recurses with
the next attempt number after the linear-backoff delay. -/
theorem fazerRequisicao_transient_step (oracle : Nat → ReqOutcome) (rc : Nat)
    (s : ReqState) (h : isTransient (oracle rc) = true) (hrc : rc < 2) :
    fazerRequisicaoAutenticada oracle rc s =
      fazerRequisicaoAutenticada oracle (rc + 1)
        { (obterTokenOk s).2 with
          tokensUsed := (obterTokenOk s).2.tokensUsed ++ [(obterTokenOk s).1],
          delays := (obterTokenOk s).2.delays ++ [1000 * (rc + 1)] } := by
  rw [fazerRequisicaoAutenticada]
  rcases ho : oracle rc with d | st | _ | m <;> rw [ho] at h <;>
    simp [isTransient] at h
  · have h401 : st ≠ 401 := by omega
    have h403 : st ≠ 403 := by omega
    simp [isAuthFailure, isTransient, h401, h403, h, hrc]
  · simp [isAuthFailure, isTransient, hrc]

/-- A transient failure on the third attempt (retries exhausted) rethrows
the original error. -/
theorem fazerRequisicao_transient_exhaust (oracle : Nat → ReqOutcome)
    (s : ReqState) (h : isTransient (oracle 2) = true) :
    fazerRequisicaoAutenticada oracle 2 s =
      (.error (.raised (oracle 2)),
       { (obterTokenOk s).2 with
         tokensUsed := (obterTokenOk s).2.tokensUsed ++ [(obterTokenOk s).1] }) := by
  rw [fazerRequisicaoAutenticada]
  rcases ho : oracle 2 with d | st | _ | m <;> rw [ho] at h <;>
    simp [isTransient] at h
  · have h401 : st ≠ 401 := by omega
    have h403 : st ≠ 403 := by omega
    simp [isAuthFailure, isTransient, h401, h403, h]
  · simp [isAuthFailure, isTransient]

/-- Any single activation appends exactly one used token before branching,
so the total number of attempts of a call is bounded by the remaining retry
budget: helper induction for the C8 bound. -/
theorem fazerRequisicao_attempts_aux : ∀ (m rc : Nat) (oracle : Nat → ReqOutcome)
    (s : ReqState), 2 - rc ≤ m →
    (fazerRequisicaoAutenticada oracle rc s).2.tokensUsed.length ≤
      s.tokensUsed.length + 1 + (2 - rc) := by
  intro m
  induction m with
  | zero =>
      intro rc oracle s hm
      rw [fazerRequisicaoAutenticada]
      rcases ho : oracle rc with d | st | _ | m0 <;>
        rcases hc : s.cachedToken with _ | t0 <;>
        simp [obterTokenOk, hc, isAuthFailure, isTransient] <;>
        split_ifs <;>
        first
          | omega
          | (simp [List.length_append]; omega)
          | simp [List.length_append]
  | succ m ih =>
      intro rc oracle s hm
      rw [fazerRequisicaoAutenticada]
      rcases ho : oracle rc with d | st | _ | m0 <;>
        rcases hc : s.cachedToken with _ | t0 <;>
        simp [obterTokenOk, hc, isAuthFailure, isTransient] <;>
        split_ifs <;>
        first
          | (refine le_trans (ih (rc + 1) oracle _ (by omega)) ?_;
             simp [List.length_append]; omega)
          | omega
          | (simp [List.length_append]; omega)
          | simp [List.length_append]

/-- C8: a call whose every attempt fails transiently (timeout or HTTP 5xx)
makes exactly 1 + MAX_RETRIES = 3 attempts with backoff delays of 1000ms and
2000ms (1s times the attempt number) and then rethrows the transient error
of the last attempt; an error that is neither transient nor 401/403
propagates after a single attempt with no delay; and no call ever makes more
than 3 attempts for any transport behavior, so the retry recursion
terminates. -/
theorem fazerRequisicao_transient_retry :
    (∀ (oracle : Nat → ReqOutcome) (s : ReqState),
      (∀ i, i ≤ 2 → isTransient (oracle i) = true) →
      (fazerRequisicaoAutenticada oracle 0 s).1 = .error (.raised (oracle 2)) ∧
      (fazerRequisicaoAutenticada oracle 0 s).2.tokensUsed.length
        = s.tokensUsed.length + 3 ∧
      (fazerRequisicaoAutenticada oracle 0 s).2.delays = s.delays ++ [1000, 2000]) ∧
    (∀ (oracle : Nat → ReqOutcome) (s : ReqState),
      isTransient (oracle 0) = false → isAuthFailure (oracle 0) = false →
      (∀ d, oracle 0 ≠ .ok d) →
      (fazerRequisicaoAutenticada oracle 0 s).1 = .error (.raised (oracle 0)) ∧
      (fazerRequisicaoAutenticada oracle 0 s).2.tokensUsed.length
        = s.tokensUsed.length + 1 ∧
      (fazerRequisicaoAutenticada oracle 0 s).2.delays = s.delays) ∧
    (∀ (oracle : Nat → ReqOutcome) (rc : Nat) (s : ReqState),
      (fazerRequisicaoAutenticada oracle rc s).2.tokensUsed.length ≤
        s.tokensUsed.length + 3) := by
  refine ⟨?_, ?_, ?_⟩
  · intro oracle s h
    rw [fazerRequisicao_transient_step oracle 0 s (h 0 (by omega)) (by omega),
        fazerRequisicao_transient_step oracle 1 _ (h 1 (by omega)) (by omega),
        fazerRequisicao_transient_exhaust oracle _ (h 2 (by omega))]
    rcases hc : s.cachedToken with _ | t0 <;>
      simp [obterTokenOk, hc, List.length_append] <;> omega
  · intro oracle s ht ha hok
    rw [fazerRequisicaoAutenticada]
    rcases ho : oracle 0 with d | st | _ | m0
    · exact absurd ho (hok d)
    · rw [ho] at ht ha
      simp [isTransient] at ht
      simp [isAuthFailure] at ha
      have h5 : ¬ (500 ≤ st) := by omega
      rcases hc : s.cachedToken with _ | t0 <;>
        simp [obterTokenOk, hc, isAuthFailure, isTransient, ha.1, ha.2, h5,
              List.length_append]
    · rw [ho] at ht; simp [isTransient] at ht
    · rcases hc : s.cachedToken with _ | t0 <;>
        simp_all [obterTokenOk, isAuthFailure, isTransient, List.length_append]
  · intro oracle rc s
    have h := fazerRequisicao_attempts_aux (2 - rc) rc oracle s (by omega)
    omega

/-- C8 witness: a request that always times out, from an empty token state:
three attempts, delays 1000 and 2000, and the timeout is rethrown. -/
theorem fazerRequisicao_transient_retry_witness :
    (fazerRequisicaoAutenticada (fun _ => .timeout) 0 ⟨none, 0, 0, [], []⟩).1
      = .error (.raised .timeout) ∧
    (fazerRequisicaoAutenticada (fun _ => .timeout) 0
      ⟨none, 0, 0, [], []⟩).2.tokensUsed.length = 0 + 3 ∧
    (fazerRequisicaoAutenticada (fun _ => .timeout) 0
      ⟨none, 0, 0, [], []⟩).2.delays = [] ++ [1000, 2000] := by
  have h := fazerRequisicao_transient_retry.1 (fun _ => .timeout)
    ⟨none, 0, 0, [], []⟩ (fun i _ => rfl)
  simpa using h

/-! ## C7 — EntityMapper decoding of well-formed collections -/

/-- Parsing after appending processes the prefix first. -/
theorem decVal_append : ∀ (xs ys : List Char) (a : Nat),
    decVal a (xs ++ ys) = decVal (decVal a xs) ys := by
  intro xs
  induction xs with
  | nil => intro ys a; rfl
  | cons c cs ih =>
      intro ys a
      show decVal (a * 10 + (c.toNat - 48)) (cs ++ ys) = _
      exact ih ys _

/-- A decimal digit character decodes back to its digit. -/
theorem digitChar_toNat (d : Nat) (h : d < 10) : (digitChar d).toNat = 48 + d := by
  interval_cases d <;> decide

/-- `decVal` inverts `decDigitsAux` (with enough fuel). -/
theorem decDigitsAux_val : ∀ (fuel n a : Nat), n < fuel →
    decVal a (decDigitsAux fuel n) =
      a * 10 ^ (decDigitsAux fuel n).length + n := by
  intro fuel
  induction fuel with
  | zero => intro n a h; omega
  | succ fuel ih =>
      intro n a h
      have hsingle : ∀ (x : Nat) (c : Char), decVal x [c] = x * 10 + (c.toNat - 48) :=
        fun x c => rfl
      by_cases h10 : n < 10
      · simp only [decDigitsAux, if_pos h10]
        rw [hsingle, digitChar_toNat n h10]
        simp
      · have hdiv : n / 10 < fuel := by
          have h1 : n / 10 < n := Nat.div_lt_self (by omega) (by omega)
          omega
        simp only [decDigitsAux, if_neg h10]
        rw [decVal_append, ih (n / 10) a hdiv, hsingle, digitChar_toNat _
          (Nat.mod_lt _ (by omega))]
        simp only [List.length_append, List.length_singleton, pow_succ]
        have key : n / 10 * 10 + (48 + n % 10 - 48) = n := by omega
        calc (a * 10 ^ (decDigitsAux fuel (n / 10)).length + n / 10) * 10 +
              (48 + n % 10 - 48)
            = a * (10 ^ (decDigitsAux fuel (n / 10)).length * 10) +
              (n / 10 * 10 + (48 + n % 10 - 48)) := by ring
          _ = a * (10 ^ (decDigitsAux fuel (n / 10)).length * 10) + n := by
              rw [key]

/-- The decimal rendering of a natural number parses back to it. -/
theorem decVal_decDigits (n : Nat) : decVal 0 (decDigits n) = n := by
  have h := decDigitsAux_val (n + 1) n 0 (by omega)
  simpa [decDigits] using h

/-- Decimal rendering is injective. -/
theorem decDigits_inj {m n : Nat} (h : decDigits m = decDigits n) : m = n := by
  have hm := decVal_decDigits m
  have hn := decVal_decDigits n
  rw [h] at hm
  omega

/-- The slot keys f0, f1, ... are pairwise distinct. -/
theorem fkey_inj {i j : Nat} (h : ("f" ++ natDec i) = ("f" ++ natDec j)) :
    i = j := by
  apply decDigits_inj
  have hd := congrArg String.data h
  rw [String.data_append, String.data_append] at hd
  simpa [natDec] using hd

/-- Looking up a slot key below the base of the entity tail finds nothing. -/
theorem lookup_mkSlots_lt : ∀ (row : List (Option JVal)) (b t : Nat), t < b →
    (mkSlots b row).lookup ("f" ++ natDec t) = none := by
  intro row
  induction row with
  | nil => intros; rfl
  | cons s rest ih =>
      intro b t h
      cases s with
      | some v =>
          have hne : ("f" ++ natDec t) ≠ ("f" ++ natDec b) := fun hh => by
            have := fkey_inj hh; omega
          have hb : (("f" ++ natDec t) == ("f" ++ natDec b)) = false := by
            simpa using hne
          simp only [mkSlots, List.lookup, hb]
          exact ih (b + 1) t (by omega)
      | none => exact ih (b + 1) t (by omega)

/-- Slot lookup in a built entity returns exactly the wrapped row value. -/
theorem lookup_mkSlots : ∀ (row : List (Option JVal)) (b k : Nat),
    (mkSlots b row).lookup ("f" ++ natDec (b + k)) =
      (row.getD k none).map mkSlot := by
  intro row
  induction row with
  | nil => intros; rfl
  | cons s rest ih =>
      intro b k
      cases s with
      | some v =>
          cases k with
          | zero => simp [mkSlots, List.lookup]
          | succ k =>
              have hne : ("f" ++ natDec (b + (k + 1))) ≠ ("f" ++ natDec b) :=
                fun hh => by have := fkey_inj hh; omega
              have hb : (("f" ++ natDec (b + (k + 1))) == ("f" ++ natDec b))
                  = false := by simpa using hne
              simp only [mkSlots, List.lookup, hb]
              have h := ih (b + 1) k
              rw [show b + (k + 1) = b + 1 + k by omega]
              simpa using h
      | none =>
          cases k with
          | zero =>
              simp only [mkSlots, Nat.add_zero]
              rw [lookup_mkSlots_lt rest (b + 1) b (by omega)]
              rfl
          | succ k =>
              simp only [mkSlots]
              have h := ih (b + 1) k
              rw [show b + (k + 1) = b + 1 + k by omega]
              simpa using h

/-- Assigning a fresh key appends it (insertion order). -/
theorem setProp_append (acc : List (String × JVal)) (k : String) (v : JVal)
    (h : ∀ p ∈ acc, p.1 ≠ k) : setProp acc k v = acc ++ [(k, v)] := by
  unfold setProp
  have hany : (acc.any (fun p => p.1 == k)) = false := by
    rw [List.any_eq_false]
    intro p hp
    simpa using h p hp
  simp [hany]

/-- The slot-assignment loop on a built entity produces exactly the record
the specification prescribes, appended to the accumulator. -/
theorem assignFields_mkEntity : ∀ (ns : List String) (i : Nat)
    (row : List (Option JVal)) (acc : List (String × JVal)),
    (∀ p ∈ acc, p.1 ∉ ns) → ns.Nodup →
    assignFields (.obj (mkSlots 0 row)) (ns.map JVal.str) i acc =
      .ok (acc ++ expectedRecAux i ns row) := by
  intro ns
  induction ns with
  | nil =>
      intro i row acc _ _
      simp [assignFields, expectedRecAux]
  | cons n rest ih =>
      intro i row acc hacc hnd
      rw [List.nodup_cons] at hnd
      have hl := lookup_mkSlots row 0 i
      rw [Nat.zero_add] at hl
      cases hrow : row.getD i none with
      | some v =>
          rw [hrow] at hl
          have hsp : setProp acc (jsToString (JVal.str n)) v = acc ++ [(n, v)] := by
            show setProp acc n v = acc ++ [(n, v)]
            exact setProp_append acc n v
              (fun p hp he => hacc p hp (he ▸ List.mem_cons_self n rest))
          have hacc2 : ∀ p ∈ acc ++ [(n, v)], p.1 ∉ rest := by
            intro p hp
            rcases List.mem_append.mp hp with hp1 | hp2
            · exact fun hm => hacc p hp1 (List.mem_cons_of_mem n hm)
            · rcases List.mem_singleton.mp hp2 with rfl
              exact hnd.1
          have hrow2 : row[i]?.getD none = some v := by simpa using hrow
          simp [assignFields, getProp, hl, mkSlot, truthy, Except.bind,
            Bind.bind, pure, Except.pure, List.lookup, hsp,
            ih (i + 1) row (acc ++ [(n, v)]) hacc2 hnd.2,
            expectedRecAux, hrow2]
      | none =>
          rw [hrow] at hl
          have hacc2 : ∀ p ∈ acc, p.1 ∉ rest :=
            fun p hp hm => hacc p hp (List.mem_cons_of_mem n hm)
          have hrow2 : row[i]?.getD none = none := by simpa using hrow
          simp [assignFields, getProp, hl, truthy, Except.bind,
            Bind.bind, pure, Except.pure,
            ih (i + 1) row acc hacc2 hnd.2, expectedRecAux, hrow2]

/-- Reading the `name` member over a built metadata field list (stated for
the accumulator loop underlying `List.mapM`). -/
theorem mapM_getName_loop : ∀ (names : List String) (acc : List JVal),
    List.mapM.loop (fun f => getProp f "name")
      (names.map (fun n => JVal.obj [("name", JVal.str n)])) acc =
      .ok (acc.reverse ++ names.map JVal.str) := by
  intro names
  induction names with
  | nil => intro acc; simp [List.mapM.loop, pure, Except.pure]
  | cons n rest ih =>
      intro acc
      have hg : getProp (JVal.obj [("name", JVal.str n)]) "name" = .ok (.str n) := rfl
      simp only [List.map_cons, List.mapM.loop, hg, Except.bind, Bind.bind]
      rw [ih (JVal.str n :: acc)]
      simp

/-- Reading the `name` member over a built metadata field list. -/
theorem mapM_getName (names : List String) :
    List.mapM (fun f => getProp f "name")
      (names.map (fun n => JVal.obj [("name", JVal.str n)])) =
      .ok (names.map JVal.str) := by
  have h := mapM_getName_loop names []
  simpa [List.mapM] using h

/-- Binding a settled `Except.ok` applies the continuation (a targeted
rewrite that leaves symbolic binds untouched). -/
theorem ok_bind {α β ε : Type} (a : α) (f : α → Except ε β) :
    (Except.ok a : Except ε α) >>= f = f a := rfl

/-- Mapping the per-entity record constructor over built entities (stated
for the accumulator loop underlying `List.mapM`). -/
theorem mapM_rows_loop : ∀ (rows : List (List (Option JVal)))
    (names : List String) (acc : List JVal), names.Nodup →
    List.mapM.loop (fun re => do
        let flds ← assignFields re (names.map JVal.str) 0 []
        return JVal.obj flds) (rows.map mkEntity) acc =
      .ok (acc.reverse ++ rows.map (fun row => JVal.obj (expectedRec names row))) := by
  intro rows
  induction rows with
  | nil => intro names acc h; simp [List.mapM.loop, pure, Except.pure]
  | cons row rest ih =>
      intro names acc h
      have ha := assignFields_mkEntity names 0 row [] (by simp) h
      simp only [List.map_cons, List.mapM.loop, mkEntity, ha, List.nil_append,
        ok_bind, pure_bind]
      rw [ih names _ h]
      simp [expectedRec]

/-- C7: on a well-formed raw collection — an ordered list of (distinct)
field names in the metadata and an entity list — `mapearEntidades` returns
exactly one record per entity, in input order; within each record, the slot
at positional index `i`, when present, contributes its unwrapped value under
the i-th field name, fields are inserted in field-index order, and absent
slots leave the field omitted entirely (`expectedRecAux` is the direct
transcription of this prescription).  A single bare entity is treated as a
one-element array. -/
theorem mapearEntidades_well_formed (names : List String) (hnd : names.Nodup) :
    (∀ rows : List (List (Option JVal)),
      mapearEntidades (mkCollection names (.arr (rows.map mkEntity))) =
        .ok (rows.map (fun row => JVal.obj (expectedRec names row)))) ∧
    (∀ row : List (Option JVal),
      mapearEntidades (mkCollection names (mkEntity row)) =
        .ok [JVal.obj (expectedRec names row)]) := by
  have hfl : getProp (JVal.obj [("fields", JVal.obj [("field",
      JVal.arr (names.map (fun n => JVal.obj [("name", JVal.str n)])))])]) "fields"
      = Except.ok (JVal.obj [("field",
          JVal.arr (names.map (fun n => JVal.obj [("name", JVal.str n)])))]) := rfl
  have hfd : getProp (JVal.obj [("field",
      JVal.arr (names.map (fun n => JVal.obj [("name", JVal.str n)])))]) "field"
      = Except.ok (JVal.arr (names.map (fun n => JVal.obj [("name", JVal.str n)]))) := rfl
  constructor
  · intro rows
    have htr : truthy (mkCollection names (.arr (rows.map mkEntity))) = true := rfl
    have hent : getProp (mkCollection names (.arr (rows.map mkEntity))) "entity"
        = Except.ok (.arr (rows.map mkEntity)) := rfl
    have hmd : getProp (mkCollection names (.arr (rows.map mkEntity))) "metadata"
        = Except.ok (JVal.obj [("fields", JVal.obj [("field",
            JVal.arr (names.map (fun n => JVal.obj [("name", JVal.str n)])))])]) := rfl
    have htra : truthy (JVal.arr (rows.map mkEntity)) = true := rfl
    simp only [mapearEntidades, htr, htra, hent, hmd, hfl, hfd,
      ok_bind, Bool.not_true, Bool.false_eq_true, if_false]
    simp only [mapM_getName names, ok_bind]
    simp only [List.mapM]
    rw [mapM_rows_loop rows names [] hnd]
    simp
  · intro row
    have htr : truthy (mkCollection names (mkEntity row)) = true := rfl
    have htr2 : truthy (mkEntity row) = true := rfl
    have hent : getProp (mkCollection names (mkEntity row)) "entity"
        = Except.ok (mkEntity row) := rfl
    have hmd : getProp (mkCollection names (mkEntity row)) "metadata"
        = Except.ok (JVal.obj [("fields", JVal.obj [("field",
            JVal.arr (names.map (fun n => JVal.obj [("name", JVal.str n)])))])]) := rfl
    simp only [mapearEntidades, htr, htr2, hent, hmd, hfl, hfd,
      ok_bind, Bool.not_true, Bool.false_eq_true, if_false]
    simp only [mapM_getName names, ok_bind]
    simp only [List.mapM, mkEntity]
    have h := mapM_rows_loop [row] names [] hnd
    simp only [List.map_cons, List.map_nil, mkEntity] at h
    rw [h]
    simp

/-- C7 witness: a three-field collection decoded for a two-entity array and
for one bare entity. -/
theorem mapearEntidades_well_formed_witness :
    mapearEntidades (mkCollection ["CODLEAD", "NOME", "VALOR"]
        (.arr ([[some (JVal.str "1"), none, some (JVal.num 500)],
                [none, some (JVal.str "Maria"), none]].map mkEntity))) =
      .ok ([[some (JVal.str "1"), none, some (JVal.num 500)],
            [none, some (JVal.str "Maria"), none]].map
              (fun row => JVal.obj (expectedRec ["CODLEAD", "NOME", "VALOR"] row))) ∧
    mapearEntidades (mkCollection ["CODLEAD", "NOME", "VALOR"]
        (mkEntity [some (JVal.str "7"), some (JVal.str "Ana"), none])) =
      .ok [JVal.obj (expectedRec ["CODLEAD", "NOME", "VALOR"]
            [some (JVal.str "7"), some (JVal.str "Ana"), none])] :=
  ⟨(mapearEntidades_well_formed ["CODLEAD", "NOME", "VALOR"] (by decide)).1 _,
   (mapearEntidades_well_formed ["CODLEAD", "NOME", "VALOR"] (by decide)).2 _⟩

/-! ## C9 — the user-visibility clause of the leads criteria -/

/-- Characters of any part produced by the split come from the split input
(or the accumulator). -/
theorem mem_jsSplitChar (sep : Char) : ∀ (l acc part : List Char) (c : Char),
    part ∈ jsSplitChar sep l acc → c ∈ part → c ∈ l ∨ c ∈ acc := by
  intro l
  induction l with
  | nil =>
      intro acc part c hp hc
      simp [jsSplitChar] at hp
      subst hp
      right
      simpa using hc
  | cons c0 rest ih =>
      intro acc part c hp hc
      by_cases hs : c0 = sep
      · rw [jsSplitChar, if_pos hs] at hp
        rcases List.mem_cons.mp hp with rfl | hp
        · right; simpa using hc
        · rcases ih [] part c hp hc with h | h
          · exact Or.inl (List.mem_cons_of_mem _ h)
          · simp at h
      · rw [jsSplitChar, if_neg hs] at hp
        rcases ih (c0 :: acc) part c hp hc with h | h
        · exact Or.inl (List.mem_cons_of_mem _ h)
        · rcases List.mem_cons.mp h with rfl | h
          · exact Or.inl (List.mem_cons_self _ _)
          · exact Or.inr h

/-- Characters of a destructured split part come from the split input or
from the text of `undefined`. -/
theorem mem_partStr (d : String) (k : Nat) (c : Char)
    (hc : c ∈ (partStr ((jsSplitChar '-' d.data []).get? k)).data) :
    c ∈ d.data ∨ c ∈ "undefined".data := by
  cases hg : (jsSplitChar '-' d.data []).get? k with
  | none => rw [hg] at hc; exact Or.inr hc
  | some cs =>
      rw [hg] at hc
      have hmem : cs ∈ jsSplitChar '-' d.data [] := List.get?_mem hg
      rcases mem_jsSplitChar '-' d.data [] cs c hmem hc with h | h
      · exact Or.inl h
      · simp at h

/-- Characters of a formatted date come from the ISO input, the slash, or
the text of `undefined`. -/
theorem mem_formatarData (d : String) (c : Char)
    (hc : c ∈ (formatarDataParaSankhya d).data) :
    c ∈ d.data ∨ c = '/' ∨ c ∈ "undefined".data := by
  unfold formatarDataParaSankhya at hc
  simp only [String.data_append, List.mem_append] at hc
  rcases hc with (((h | h) | h) | h) | h
  · rcases mem_partStr d 2 c h with h1 | h1
    · exact Or.inl h1
    · exact Or.inr (Or.inr h1)
  · exact Or.inr (Or.inl (by simpa using h))
  · rcases mem_partStr d 1 c h with h1 | h1
    · exact Or.inl h1
    · exact Or.inr (Or.inr h1)
  · exact Or.inr (Or.inl (by simpa using h))
  · rcases mem_partStr d 0 c h with h1 | h1
    · exact Or.inl h1
    · exact Or.inr (Or.inr h1)

/-- With ISO-shaped dates (digits and dashes), the admin criteria string
contains no uppercase U at all. -/
theorem criteriaLeads_admin_no_U (filtro : FiltroAnalise) (userId : Nat)
    (h1 : ∀ c ∈ filtro.dataInicio.data, c.isDigit ∨ c = '-')
    (h2 : ∀ c ∈ filtro.dataFim.data, c.isDigit ∨ c = '-') :
    'U' ∉ (criteriaLeads filtro userId true).data := by
  intro hU
  simp only [criteriaLeads, Bool.not_true, Bool.false_eq_true, if_false,
    String.data_append, List.mem_append] at hU
  rcases hU with (((h | h) | h) | h) | h
  · revert h; decide
  · rcases mem_formatarData _ _ h with hh | hh | hh
    · rcases h1 'U' hh with hd | hd
      · exact absurd hd (by decide)
      · exact absurd hd (by decide)
    · exact absurd hh (by decide)
    · revert hh; decide
  · revert h; decide
  · rcases mem_formatarData _ _ h with hh | hh | hh
    · rcases h2 'U' hh with hd | hd
      · exact absurd hd (by decide)
      · exact absurd hd (by decide)
    · exact absurd hh (by decide)
    · revert hh; decide
  · revert h; decide

/-- On a cache miss, the queries issued by one run are the leads query
first, followed only by queries against the seven remaining known root
entities — every issued root entity is on the fixed whitelist. -/
theorem restAllowed7 (d1 d2 : String) :
    ∀ p ∈ [atividadesPayload d1 d2, funisPayload, estagiosPayload,
      pedidosPayload d1 d2, produtosPayload, clientesPayload],
      p.rootEntity ∈ allowedRootEntities := by
  intro p hp
  simp only [List.mem_cons, List.not_mem_nil, or_false] at hp
  rcases hp with rfl | rfl | rfl | rfl | rfl | rfl <;>
    simp [atividadesPayload, funisPayload, estagiosPayload, pedidosPayload,
      produtosPayload, clientesPayload, allowedRootEntities]

theorem restAllowed8 (d1 d2 : String) (leads : List JVal) :
    ∀ p ∈ [atividadesPayload d1 d2, funisPayload, estagiosPayload,
      pedidosPayload d1 d2, produtosPayload, clientesPayload,
      ({ rootEntity := "AD_ADLEADSPRODUTOS", includePresentationFields := "S",
         fieldList := "CODITEM, CODLEAD, CODPROD, DESCRPROD, QUANTIDADE, VLRUNIT, VLRTOTAL, ATIVO, DATA_INCLUSAO",
         criteria := "CODLEAD IN (" ++ String.intercalate ","
           (jsJoinParts (List.map (fun l => jsOptProp l "CODLEAD") leads))
           ++ ") AND ATIVO = 'S'",
         ordering := none } : QueryPayload)],
      p.rootEntity ∈ allowedRootEntities := by
  intro p hp
  simp only [List.mem_cons, List.not_mem_nil, or_false] at hp
  rcases hp with rfl | rfl | rfl | rfl | rfl | rfl | rfl <;>
    simp [atividadesPayload, funisPayload, estagiosPayload, pedidosPayload,
      produtosPayload, clientesPayload, allowedRootEntities]

/-- On a cache miss, the queries issued by one run are the leads query
first, followed only by queries against the seven remaining known root
entities — every issued root entity is on the fixed whitelist. -/
theorem buscarDados_issued (oracle : Nat → QResult) (filtro : FiltroAnalise)
    (userId : Nat) (isAdmin : Bool) (st0 : OrchState)
    (hm : st0.cache.lookup (cacheKeyOf userId filtro) = none) :
    ∃ rest, (buscarDadosAnalise oracle filtro userId isAdmin st0).2.issued =
        st0.issued ++ leadsPayload filtro userId isAdmin :: rest ∧
      ∀ p ∈ rest, p.rootEntity ∈ allowedRootEntities := by
  simp only [buscarDadosAnalise, hm, issueQuery, produtosLeadsStep]
  split
  · exact ⟨_, by simp, restAllowed7 (formatarDataParaSankhya filtro.dataInicio)
      (formatarDataParaSankhya filtro.dataFim)⟩
  · rename_i tup leads atividades funis estagios pedidos produtos clientes heq
    by_cases hl : 0 < leads.length
    · simp only [hl, if_true]
      split <;> (try split) <;>
        exact ⟨_, by simp, restAllowed8
          (formatarDataParaSankhya filtro.dataInicio)
          (formatarDataParaSankhya filtro.dataFim) leads⟩
    · simp only [if_neg hl]
      exact ⟨_, by simp, restAllowed7 (formatarDataParaSankhya filtro.dataInicio)
        (formatarDataParaSankhya filtro.dataFim)⟩

/-- C9: on a cache miss the leads query is the first query issued by
`buscarDadosAnalise`, its criteria string is `criteriaLeads`, and — for
ISO-shaped filter dates — that string contains the clause
`CODUSUARIO = userId` exactly when the caller is not an admin: the clause is
appended for non-admins and, for admins, no substring of the criteria ever
spells it (the admin criteria contains no uppercase U at all). -/
theorem buscarDados_leads_criteria (oracle : Nat → QResult)
    (filtro : FiltroAnalise) (userId : Nat) (isAdmin : Bool) (st0 : OrchState)
    (hd1 : ∀ c ∈ filtro.dataInicio.data, c.isDigit ∨ c = '-')
    (hd2 : ∀ c ∈ filtro.dataFim.data, c.isDigit ∨ c = '-')
    (hm : st0.cache.lookup (cacheKeyOf userId filtro) = none) :
    (∃ rest, (buscarDadosAnalise oracle filtro userId isAdmin st0).2.issued =
        st0.issued ++ leadsPayload filtro userId isAdmin :: rest) ∧
    (leadsPayload filtro userId isAdmin).criteria = criteriaLeads filtro userId isAdmin ∧
    (isAdmin = false →
      containsSub ("CODUSUARIO = " ++ toString userId).data
        (criteriaLeads filtro userId isAdmin).data) ∧
    (isAdmin = true →
      ¬ containsSub ("CODUSUARIO = " ++ toString userId).data
        (criteriaLeads filtro userId isAdmin).data) := by
  refine ⟨?_, rfl, ?_, ?_⟩
  · obtain ⟨rest, h1, _⟩ := buscarDados_issued oracle filtro userId isAdmin st0 hm
    exact ⟨rest, h1⟩
  · rintro rfl
    have h2 : (criteriaLeads filtro userId false).data =
        ((("DATA_CRIACAO BETWEEN '" ++ formatarDataParaSankhya filtro.dataInicio
          ++ "' AND '" ++ formatarDataParaSankhya filtro.dataFim
          ++ "' AND ATIVO = 'S'") ++ " AND ").data)
        ++ ("CODUSUARIO = " ++ toString userId).data := by
      show ((("DATA_CRIACAO BETWEEN '" ++ formatarDataParaSankhya filtro.dataInicio
          ++ "' AND '" ++ formatarDataParaSankhya filtro.dataFim
          ++ "' AND ATIVO = 'S'") ++ " AND CODUSUARIO = ") ++ toString userId).data = _
      simp [String.data_append, List.append_assoc, List.cons_append]
    refine ⟨(("DATA_CRIACAO BETWEEN '" ++ formatarDataParaSankhya filtro.dataInicio
      ++ "' AND '" ++ formatarDataParaSankhya filtro.dataFim
      ++ "' AND ATIVO = 'S'") ++ " AND ").data, [], ?_⟩
    rw [List.append_nil]
    exact h2
  · rintro rfl hcon
    obtain ⟨a, b, heq⟩ := hcon
    have hU : 'U' ∈ (criteriaLeads filtro userId true).data := by
      rw [heq]
      have hp : 'U' ∈ ("CODUSUARIO = " ++ toString userId).data := by
        rw [String.data_append]
        exact List.mem_append.mpr (Or.inl (by decide))
      simp [hp]
    exact criteriaLeads_admin_no_U filtro userId hd1 hd2 hU

/-- C9 witness: the example scenario — January 2024 filter, user 7 — for a
non-admin and for an admin caller. -/
theorem buscarDados_leads_criteria_witness :
    ((∃ rest, (buscarDadosAnalise (fun _ => .err "down")
        ⟨"2024-01-01", "2024-01-31"⟩ 7 false ⟨[], 0, []⟩).2.issued =
        [] ++ leadsPayload ⟨"2024-01-01", "2024-01-31"⟩ 7 false :: rest) ∧
      (leadsPayload ⟨"2024-01-01", "2024-01-31"⟩ 7 false).criteria
        = criteriaLeads ⟨"2024-01-01", "2024-01-31"⟩ 7 false ∧
      (false = false →
        containsSub ("CODUSUARIO = " ++ toString 7).data
          (criteriaLeads ⟨"2024-01-01", "2024-01-31"⟩ 7 false).data) ∧
      (false = true →
        ¬ containsSub ("CODUSUARIO = " ++ toString 7).data
          (criteriaLeads ⟨"2024-01-01", "2024-01-31"⟩ 7 false).data)) ∧
    ((∃ rest, (buscarDadosAnalise (fun _ => .err "down")
        ⟨"2024-01-01", "2024-01-31"⟩ 7 true ⟨[], 0, []⟩).2.issued =
        [] ++ leadsPayload ⟨"2024-01-01", "2024-01-31"⟩ 7 true :: rest) ∧
      (leadsPayload ⟨"2024-01-01", "2024-01-31"⟩ 7 true).criteria
        = criteriaLeads ⟨"2024-01-01", "2024-01-31"⟩ 7 true ∧
      (true = false →
        containsSub ("CODUSUARIO = " ++ toString 7).data
          (criteriaLeads ⟨"2024-01-01", "2024-01-31"⟩ 7 true).data) ∧
      (true = true →
        ¬ containsSub ("CODUSUARIO = " ++ toString 7).data
          (criteriaLeads ⟨"2024-01-01", "2024-01-31"⟩ 7 true).data)) :=
  ⟨buscarDados_leads_criteria (fun _ => .err "down") ⟨"2024-01-01", "2024-01-31"⟩
      7 false ⟨[], 0, []⟩ (by decide) (by decide) rfl,
   buscarDados_leads_criteria (fun _ => .err "down") ⟨"2024-01-01", "2024-01-31"⟩
      7 true ⟨[], 0, []⟩ (by decide) (by decide) rfl⟩

/-! ## C1, C2 and C10 — orchestrator outcome, cache behavior, no financials -/

/-- A cache hit returns the cached snapshot verbatim and leaves the state —
in particular the log of issued queries — untouched: no network call is
made. -/
theorem buscarDados_cache_hit (oracle : Nat → QResult) (filtro : FiltroAnalise)
    (userId : Nat) (isAdmin : Bool) (st0 : OrchState) (snap : DadosAnalise)
    (ttl : Nat)
    (hh : st0.cache.lookup (cacheKeyOf userId filtro) = some (snap, ttl)) :
    buscarDadosAnalise oracle filtro userId isAdmin st0 = (.ok snap, st0) := by
  simp [buscarDadosAnalise, hh]

/-- Under well-shaped responses, mapping one dataset never throws and yields
`datasetOf`. -/
theorem mapDataset_ok (oracle : Nat → QResult) (hws : WellShaped oracle)
    (i : Nat) : mapDataset (oracle i) = .ok (datasetOf oracle i) := by
  unfold datasetOf
  cases ho : oracle i with
  | err m => simp [mapDataset]
  | ok body =>
      simp only [mapDataset]
      by_cases ht : truthy (jsOptProp (jsOptProp body "responseBody") "entities") = true
      · have hok := hws i body ho ht
        cases hmm : mapearEntidades
            (jsOptProp (jsOptProp body "responseBody") "entities") with
        | error e => rw [hmm] at hok; simp [Except.isOk, Except.toBool] at hok
        | ok l => simp [ht, hmm, Except.mapError]
      · simp [ht]

/-- A dataset whose query was rejected contributes the empty list. -/
theorem datasetOf_err (oracle : Nat → QResult) (i : Nat) (m : String)
    (ho : oracle i = .err m) : datasetOf oracle i = [] := by
  simp [datasetOf, mapDataset, ho]

/-- On a miss that completes successfully, the fresh snapshot is stored
under the cache key with the 30-minute TTL, and the object the call returns
differs from the stored one exactly in its timestamp (one tick later) and in
carrying the metric block — the stored `resultado` has no metric keys and an
empty `financeiro`. -/
theorem buscarDados_ok (oracle : Nat → QResult) (filtro : FiltroAnalise)
    (userId : Nat) (isAdmin : Bool) (st0 : OrchState) (snap : DadosAnalise)
    (hm : st0.cache.lookup (cacheKeyOf userId filtro) = none)
    (hok : (buscarDadosAnalise oracle filtro userId isAdmin st0).1 = .ok snap) :
    ∃ res : DadosAnalise,
      (buscarDadosAnalise oracle filtro userId isAdmin st0).2.cache.lookup
        (cacheKeyOf userId filtro) = some (res, 30 * 60) ∧
      snap = { res with
               timestamp := res.timestamp + 1,
               metricas := some (metricasOf res) } ∧
      res.metricas = none ∧ res.financeiro = [] := by
  simp only [buscarDadosAnalise, hm, issueQuery, produtosLeadsStep] at hok ⊢
  split at hok
  · simp at hok
  · rename_i tup leads atividades funis estagios pedidos produtos clientes heq
    by_cases hl : 0 < leads.length
    · simp only [hl, if_true] at hok ⊢
      split at hok <;> rename_i hsplit
      · simp at hok
      · rename_i pl
        simp only [Except.ok.injEq] at hok
        subst hok
        refine ⟨⟨leads, pl, estagios, funis, atividades, pedidos, produtos,
          clientes, [], filtro, st0.clock, none⟩, ?_,
          by simp [metricasOf]; cases oracle (st0.issued.length + 7) <;> rfl,
          rfl, rfl⟩
        simp only [hsplit]
        simp [setCache]
        cases oracle (st0.issued.length + 7) <;> rfl
    · simp only [if_neg hl] at hok ⊢
      simp only [Except.ok.injEq] at hok
      subst hok
      exact ⟨⟨leads, [], estagios, funis, atividades, pedidos, produtos,
        clientes, [], filtro, st0.clock, none⟩, by simp [setCache],
        by simp [metricasOf], rfl, rfl⟩

/-- Under well-shaped responses the seven individually-caught queries never
abort the fetch: `mapSete` returns the seven `datasetOf` lists. -/
theorem mapSete_ok (oracle : Nat → QResult) (hws : WellShaped oracle)
    (b : Nat) :
    mapSete (oracle b) (oracle (b + 1)) (oracle (b + 2)) (oracle (b + 3))
      (oracle (b + 4)) (oracle (b + 5)) (oracle (b + 6)) =
    .ok (datasetOf oracle b, datasetOf oracle (b + 1), datasetOf oracle (b + 2),
         datasetOf oracle (b + 3), datasetOf oracle (b + 4),
         datasetOf oracle (b + 5), datasetOf oracle (b + 6)) := by
  simp only [mapSete, bind, pure,
    mapDataset_ok oracle hws b, mapDataset_ok oracle hws (b + 1),
    mapDataset_ok oracle hws (b + 2), mapDataset_ok oracle hws (b + 3),
    mapDataset_ok oracle hws (b + 4), mapDataset_ok oracle hws (b + 5),
    mapDataset_ok oracle hws (b + 6), Except.bind, Except.pure]

/-- Under well-shaped responses, a settled lead-products body maps without
throwing: the guarded mapping expression yields some list. -/
theorem produtosLeads_ite_ok (oracle : Nat → QResult) (hws : WellShaped oracle)
    (i : Nat) (body : JVal) (ho : oracle i = .ok body) :
    ∃ l, (if truthy (jsOptProp (jsOptProp body "responseBody") "entities") = true
        then Except.mapError (fun x => "TypeError")
          (mapearEntidades (jsOptProp (jsOptProp body "responseBody") "entities"))
        else Except.ok []) = Except.ok l := by
  by_cases ht : truthy (jsOptProp (jsOptProp body "responseBody") "entities") = true
  · have hok := hws _ body ho ht
    cases hmm : mapearEntidades (jsOptProp (jsOptProp body "responseBody")
        "entities") with
    | error e2 =>
        rw [hmm] at hok
        simp [Except.isOk, Except.toBool] at hok
    | ok l => exact ⟨l, by rw [if_pos ht]; simp [Except.mapError]⟩
  · exact ⟨[], by rw [if_neg ht]⟩

/-- C1 amended: under a cache miss and well-shaped responses the fetch
follows `FailurePolicy`. -/
theorem buscarDados_failure_policy (oracle : Nat → QResult)
    (filtro : FiltroAnalise) (userId : Nat) (isAdmin : Bool) (st0 : OrchState)
    (hm : st0.cache.lookup (cacheKeyOf userId filtro) = none)
    (hws : WellShaped oracle) :
    FailurePolicy oracle (buscarDadosAnalise oracle filtro userId isAdmin st0).1
      st0.issued.length := by
  have hms := mapSete_ok oracle hws st0.issued.length
  simp only [FailurePolicy, buscarDadosAnalise, hm, issueQuery, produtosLeadsStep,
    List.length_append, List.length_singleton, Nat.add_assoc, Nat.reduceAdd]
  rw [hms]
  split
  · rename_i e heq
    exact absurd heq (by simp)
  · rename_i tup leads atividades funis estagios pedidos produtos clientes heq
    simp only [Except.ok.injEq, Prod.mk.injEq] at heq
    obtain ⟨h1, h2, h3, h4, h5, h6, h7⟩ := heq
    subst h1 h2 h3 h4 h5 h6 h7
    constructor
    · intro m
      constructor
      · intro h
        by_cases hl : (datasetOf oracle st0.issued.length).length > 0
        · rw [if_pos hl] at h
          cases ho : oracle (st0.issued.length + 7) with
          | err e =>
              rw [ho] at h
              simp at h
              exact ⟨fun hnil => by rw [hnil] at hl; simp at hl, by rw [h]⟩
          | ok body =>
              rw [ho] at h
              obtain ⟨l, hred⟩ := produtosLeads_ite_ok oracle hws _ body ho
              simp only [hred] at h
              simp at h
        · rw [if_neg hl] at h
          simp at h
      · rintro ⟨hne, ho⟩
        have hl : (datasetOf oracle st0.issued.length).length > 0 :=
          List.length_pos.mpr hne
        rw [if_pos hl, ho]
    · intro snap h
      by_cases hl : (datasetOf oracle st0.issued.length).length > 0
      · rw [if_pos hl] at h
        cases ho : oracle (st0.issued.length + 7) with
        | err e =>
            rw [ho] at h
            simp at h
        | ok body =>
            rw [ho] at h
            obtain ⟨l, hred⟩ := produtosLeads_ite_ok oracle hws _ body ho
            simp only [hred] at h
            simp only [Except.ok.injEq] at h
            subst h
            exact ⟨rfl, rfl, rfl, rfl, rfl, rfl, rfl⟩
      · rw [if_neg hl] at h
        simp at h
        subst h
        refine ⟨?_, rfl, rfl, rfl, rfl, rfl, rfl⟩
        have : datasetOf oracle st0.issued.length = [] := by
          cases hd : datasetOf oracle st0.issued.length with
          | nil => rfl
          | cons a t => rw [hd] at hl; simp at hl
        rw [this]

/-- C1 counterexample: the claim says the fetch throws exactly when every
dataset query fails, with the last error propagating. Here EVERY query is
rejected (`ECONNREFUSED`), yet the call does not throw: the seven caught
queries degrade to empty lists, the lead-products follow-up is skipped
(no leads), and an ok snapshot with all-empty datasets and zero metrics is
returned after seven issued queries. -/
theorem buscarDados_all_queries_fail_no_throw :
    (buscarDadosAnalise (fun _ => QResult.err "ECONNREFUSED")
        ⟨"2024-01-01", "2024-01-31"⟩ 7 false ⟨[], 0, []⟩).1 =
      Except.ok
        { leads := [], produtosLeads := [], estagiosFunis := [], funis := [],
          atividades := [], pedidos := [], produtos := [], clientes := [],
          financeiro := [], filtro := ⟨"2024-01-01", "2024-01-31"⟩,
          timestamp := 1,
          metricas := some ⟨0, 0, 0, 0, 0, 0, 0, 0, 0, 0⟩ } ∧
    (buscarDadosAnalise (fun _ => QResult.err "ECONNREFUSED")
        ⟨"2024-01-01", "2024-01-31"⟩ 7 false ⟨[], 0, []⟩).2.issued.length = 7 :=
  ⟨rfl, rfl⟩

/-- Witness for `buscarDados_failure_policy`: the all-rejected oracle at a
fresh state satisfies both hypotheses, and the policy holds there. -/
theorem buscarDados_failure_policy_witness :
    (OrchState.mk [] 0 []).cache.lookup
      (cacheKeyOf 7 ⟨"2024-01-01", "2024-01-31"⟩) = none ∧
    WellShaped (fun _ => QResult.err "down") ∧
    FailurePolicy (fun _ => QResult.err "down")
      (buscarDadosAnalise (fun _ => QResult.err "down")
        ⟨"2024-01-01", "2024-01-31"⟩ 7 false ⟨[], 0, []⟩).1
      (OrchState.mk [] 0 []).issued.length :=
  ⟨rfl, fun i body h => by simp at h,
   buscarDados_failure_policy (fun _ => QResult.err "down")
     ⟨"2024-01-01", "2024-01-31"⟩ 7 false ⟨[], 0, []⟩ rfl
     (fun i body h => by simp at h)⟩

/-! ## C2 — cache short-circuit -/

/-- C2 counterexample: after a first call populates the cache, a second call
with identical arguments issues zero additional queries — but the snapshot
it returns is NOT deep-equal to the first one: the first call returned the
extended object literal (metric keys, fresh timestamp), while the cache
holds the bare `resultado` (no `metricas` key, earlier timestamp). -/
theorem buscarDados_second_call_not_deep_equal :
    ((buscarDadosAnalise (fun _ => QResult.err "down")
        ⟨"2024-01-01", "2024-01-31"⟩ 7 false
        ((buscarDadosAnalise (fun _ => QResult.err "down")
          ⟨"2024-01-01", "2024-01-31"⟩ 7 false ⟨[], 0, []⟩).2)).2.issued =
      (buscarDadosAnalise (fun _ => QResult.err "down")
        ⟨"2024-01-01", "2024-01-31"⟩ 7 false ⟨[], 0, []⟩).2.issued) ∧
    ((buscarDadosAnalise (fun _ => QResult.err "down")
        ⟨"2024-01-01", "2024-01-31"⟩ 7 false ⟨[], 0, []⟩).1.map
      DadosAnalise.timestamp = .ok 1) ∧
    ((buscarDadosAnalise (fun _ => QResult.err "down")
        ⟨"2024-01-01", "2024-01-31"⟩ 7 false
        ((buscarDadosAnalise (fun _ => QResult.err "down")
          ⟨"2024-01-01", "2024-01-31"⟩ 7 false ⟨[], 0, []⟩).2)).1.map
      DadosAnalise.timestamp = .ok 0) ∧
    ((buscarDadosAnalise (fun _ => QResult.err "down")
        ⟨"2024-01-01", "2024-01-31"⟩ 7 false ⟨[], 0, []⟩).1.map
      DadosAnalise.metricas = .ok (some ⟨0, 0, 0, 0, 0, 0, 0, 0, 0, 0⟩)) ∧
    ((buscarDadosAnalise (fun _ => QResult.err "down")
        ⟨"2024-01-01", "2024-01-31"⟩ 7 false
        ((buscarDadosAnalise (fun _ => QResult.err "down")
          ⟨"2024-01-01", "2024-01-31"⟩ 7 false ⟨[], 0, []⟩).2)).1.map
      DadosAnalise.metricas = .ok none) :=
  ⟨rfl, rfl, rfl, rfl, rfl⟩

/-- C2 amended: the cache key is derived from `(userId, dataInicio,
dataFim)`; a live hit returns the cached snapshot verbatim with zero
additional queries, and a miss that completes stores the computed
`resultado` under that key with the fixed 30-minute TTL — but the stored
object is not deep-equal to the one the first call returned: it lacks the
metric keys (and carries the earlier timestamp), so the second call's
snapshot differs from the first call's. -/
theorem buscarDados_cache_policy (oracle : Nat → QResult)
    (filtro : FiltroAnalise) (userId : Nat) (isAdmin : Bool) (st0 : OrchState) :
    (∀ snap ttl,
      st0.cache.lookup (cacheKeyOf userId filtro) = some (snap, ttl) →
      buscarDadosAnalise oracle filtro userId isAdmin st0 = (.ok snap, st0)) ∧
    (∀ snap,
      st0.cache.lookup (cacheKeyOf userId filtro) = none →
      (buscarDadosAnalise oracle filtro userId isAdmin st0).1 = .ok snap →
      ∃ res,
        (buscarDadosAnalise oracle filtro userId isAdmin st0).2.cache.lookup
          (cacheKeyOf userId filtro) = some (res, 30 * 60) ∧
        snap = { res with
                 timestamp := res.timestamp + 1,
                 metricas := some (metricasOf res) } ∧
        res.metricas = none) :=
  ⟨fun snap ttl hh =>
      buscarDados_cache_hit oracle filtro userId isAdmin st0 snap ttl hh,
   fun snap hm hok => by
    obtain ⟨res, h1, h2, h3, _⟩ :=
      buscarDados_ok oracle filtro userId isAdmin st0 snap hm hok
    exact ⟨res, h1, h2, h3⟩⟩

/-- Witness for `buscarDados_cache_policy`: at the all-rejected oracle on a
fresh state the miss hypothesis and the concrete ok outcome hold, and the
store-with-TTL consequence follows. -/
theorem buscarDados_cache_policy_witness :
    (OrchState.mk [] 0 []).cache.lookup
      (cacheKeyOf 7 ⟨"2024-01-01", "2024-01-31"⟩) = none ∧
    ((buscarDadosAnalise (fun _ => QResult.err "down")
        ⟨"2024-01-01", "2024-01-31"⟩ 7 false ⟨[], 0, []⟩).1 =
      Except.ok
        { leads := [], produtosLeads := [], estagiosFunis := [], funis := [],
          atividades := [], pedidos := [], produtos := [], clientes := [],
          financeiro := [], filtro := ⟨"2024-01-01", "2024-01-31"⟩,
          timestamp := 1,
          metricas := some ⟨0, 0, 0, 0, 0, 0, 0, 0, 0, 0⟩ }) ∧
    ∃ res,
      (buscarDadosAnalise (fun _ => QResult.err "down")
        ⟨"2024-01-01", "2024-01-31"⟩ 7 false ⟨[], 0, []⟩).2.cache.lookup
          (cacheKeyOf 7 ⟨"2024-01-01", "2024-01-31"⟩) = some (res, 30 * 60) ∧
      ({ leads := [], produtosLeads := [], estagiosFunis := [], funis := [],
         atividades := [], pedidos := [], produtos := [], clientes := [],
         financeiro := [], filtro := ⟨"2024-01-01", "2024-01-31"⟩,
         timestamp := 1,
         metricas := some ⟨0, 0, 0, 0, 0, 0, 0, 0, 0, 0⟩ } : DadosAnalise) =
        { res with
          timestamp := res.timestamp + 1,
          metricas := some (metricasOf res) } ∧
      res.metricas = none :=
  ⟨rfl, rfl,
   (buscarDados_cache_policy (fun _ => QResult.err "down")
      ⟨"2024-01-01", "2024-01-31"⟩ 7 false ⟨[], 0, []⟩).2
     { leads := [], produtosLeads := [], estagiosFunis := [], funis := [],
       atividades := [], pedidos := [], produtos := [], clientes := [],
       financeiro := [], filtro := ⟨"2024-01-01", "2024-01-31"⟩,
       timestamp := 1,
       metricas := some ⟨0, 0, 0, 0, 0, 0, 0, 0, 0, 0⟩ } rfl rfl⟩

/-! ## C10 — no financial data -/

/-- C10: every snapshot the cache-miss path returns has an empty
`financeiro`, its metric block carries zero in all four financial fields,
and every query the run issues targets one of the eight known root
entities — none of which is a receivables/financial entity. -/
theorem buscarDados_no_financeiro (oracle : Nat → QResult)
    (filtro : FiltroAnalise) (userId : Nat) (isAdmin : Bool) (st0 : OrchState)
    (snap : DadosAnalise)
    (hm : st0.cache.lookup (cacheKeyOf userId filtro) = none)
    (hok : (buscarDadosAnalise oracle filtro userId isAdmin st0).1 = .ok snap) :
    snap.financeiro = [] ∧
    (∃ m, snap.metricas = some m ∧ m.totalFinanceiro = 0 ∧
      m.valorTotalFinanceiro = 0 ∧ m.valorRecebido = 0 ∧ m.valorPendente = 0) ∧
    ∀ p ∈ (buscarDadosAnalise oracle filtro userId isAdmin st0).2.issued,
      p ∈ st0.issued ∨ p.rootEntity ∈ allowedRootEntities := by
  obtain ⟨res, hcache, hsnap, hmet, hfin⟩ :=
    buscarDados_ok oracle filtro userId isAdmin st0 snap hm hok
  refine ⟨?_, ?_, ?_⟩
  · rw [hsnap]
    exact hfin
  · rw [hsnap]
    exact ⟨metricasOf res, rfl, rfl, rfl, rfl, rfl⟩
  · intro p hp
    obtain ⟨rest, hiss, hall⟩ :=
      buscarDados_issued oracle filtro userId isAdmin st0 hm
    rw [hiss] at hp
    rcases List.mem_append.mp hp with h0 | hr
    · exact Or.inl h0
    · rcases List.mem_cons.mp hr with rfl | hrest
      · exact Or.inr (by simp [leadsPayload, allowedRootEntities])
      · exact Or.inr (hall p hrest)

/-- Witness for `buscarDados_no_financeiro`: concrete run at the
all-rejected oracle on a fresh state. -/
theorem buscarDados_no_financeiro_witness :
    (OrchState.mk [] 0 []).cache.lookup
      (cacheKeyOf 7 ⟨"2024-01-01", "2024-01-31"⟩) = none ∧
    ((buscarDadosAnalise (fun _ => QResult.err "down")
        ⟨"2024-01-01", "2024-01-31"⟩ 7 false ⟨[], 0, []⟩).1 =
      Except.ok
        { leads := [], produtosLeads := [], estagiosFunis := [], funis := [],
          atividades := [], pedidos := [], produtos := [], clientes := [],
          financeiro := [], filtro := ⟨"2024-01-01", "2024-01-31"⟩,
          timestamp := 1,
          metricas := some ⟨0, 0, 0, 0, 0, 0, 0, 0, 0, 0⟩ }) ∧
    (({ leads := [], produtosLeads := [], estagiosFunis := [], funis := [],
        atividades := [], pedidos := [], produtos := [], clientes := [],
        financeiro := [], filtro := ⟨"2024-01-01", "2024-01-31"⟩,
        timestamp := 1,
        metricas := some ⟨0, 0, 0, 0, 0, 0, 0, 0, 0, 0⟩ } : DadosAnalise).financeiro = [] ∧
     (∃ m, ({ leads := [], produtosLeads := [], estagiosFunis := [],
              funis := [], atividades := [], pedidos := [], produtos := [],
              clientes := [], financeiro := [],
              filtro := ⟨"2024-01-01", "2024-01-31"⟩, timestamp := 1,
              metricas := some ⟨0, 0, 0, 0, 0, 0, 0, 0, 0, 0⟩ }
            : DadosAnalise).metricas = some m ∧
       m.totalFinanceiro = 0 ∧ m.valorTotalFinanceiro = 0 ∧
       m.valorRecebido = 0 ∧ m.valorPendente = 0) ∧
     ∀ p ∈ (buscarDadosAnalise (fun _ => QResult.err "down")
         ⟨"2024-01-01", "2024-01-31"⟩ 7 false ⟨[], 0, []⟩).2.issued,
       p ∈ (OrchState.mk [] 0 []).issued ∨
         p.rootEntity ∈ allowedRootEntities) :=
  ⟨rfl, rfl,
   buscarDados_no_financeiro (fun _ => QResult.err "down")
     ⟨"2024-01-01", "2024-01-31"⟩ 7 false ⟨[], 0, []⟩
     { leads := [], produtosLeads := [], estagiosFunis := [], funis := [],
       atividades := [], pedidos := [], produtos := [], clientes := [],
       financeiro := [], filtro := ⟨"2024-01-01", "2024-01-31"⟩,
       timestamp := 1,
       metricas := some ⟨0, 0, 0, 0, 0, 0, 0, 0, 0, 0⟩ } rfl rfl⟩
